import Mathlib

/-!
InnoDB buffer pool header (`storage/innobase/include/buf0buf.h`)

A shallow embedding of the inline functions, macros and enumerations of
`buf0buf.h`, with theorems about the page-header accessors, the pin counter,
the control-block states and the compressed-page size classes.

Conventions of the embedding:
* a `const byte*` is a total map from a byte offset (relative to the pointer)
  to a byte; pointer arithmetic `p + k` is `ptr_add p k`;
* C unsigned integers are natural numbers, reduced `% 2 ^ 32` where the C
  code computes in `uint` / `uint32_t`;
* a nullable output pointer `bool*` is an `Option Bool`: `none` is the null
  pointer, `some v` a pointer to a `bool` currently holding `v`.
-/

namespace Buf0buf

/-! ## Bytes and pointers -/

/-- One octet of a page (`typedef unsigned char byte`). -/
abbrev byte := Fin 256

/-- View of memory through a `const byte*`: the byte found at each offset. -/
abbrev BytePtr := Nat → byte

/-- Pointer arithmetic `p + k` on a `const byte*`. -/
def ptr_add (p : BytePtr) (k : Nat) : BytePtr := fun i => p (k + i)

/-- Largest value of a C `uint` / `uint32_t` plus one. -/
def UINT_RANGE : Nat := 2 ^ 32

/-! ## Parts declared outside `buf0buf.h` -/

/-- Modelled from the spec: `mach_read_from_2` (mach0data.ic is not part of the
sources at hand) reads two consecutive bytes as one big-endian number, most
significant byte first. -/
def mach_read_from_2 (b : BytePtr) : Nat :=
  ((b 0).val <<< 8) ||| (b 1).val

/-- Modelled from the spec: `mach_read_from_4` (mach0data.ic is not part of the
sources at hand) reads four consecutive bytes as one big-endian number, most
significant byte first. -/
def mach_read_from_4 (b : BytePtr) : Nat :=
  ((b 0).val <<< 24) ||| ((b 1).val <<< 16) ||| ((b 2).val <<< 8) ||| (b 3).val

/-- Modelled from the spec: `FIL_PAGE_TYPE` (fil0fil.h), the byte offset of the
2-byte page type field in the page header. -/
def FIL_PAGE_TYPE : Nat := 24

/-- Modelled from the spec: `FIL_PAGE_COMPRESS_FCRC32_MARKER` (fil0fil.h), the
number of the type-field bit that marks a full_crc32 page as compressed; the
15 bits below it carry the payload length. -/
def FIL_PAGE_COMPRESS_FCRC32_MARKER : Nat := 15

/-- Modelled from the spec: `FIL_PAGE_PAGE_COMPRESSED` (fil0fil.h), the page
type of a page_compressed page in the formats other than full_crc32. -/
def FIL_PAGE_PAGE_COMPRESSED : Nat := 34354

/-- Modelled from the spec: `FIL_PAGE_FCRC32_KEY_VERSION` (fil0fil.h), the
offset of the key version in full_crc32 format: bytes 0..3. -/
def FIL_PAGE_FCRC32_KEY_VERSION : Nat := 0

/-- Modelled from the spec: `FIL_PAGE_FILE_FLUSH_LSN_OR_KEY_VERSION`
(fil0fil.h), the offset of the key version in the other formats: byte 26. -/
def FIL_PAGE_FILE_FLUSH_LSN_OR_KEY_VERSION : Nat := 26

/-! ## Page header accessors (buf0buf.h:661-716)

`fil_space_t::full_crc32` is declared in fil0fil.h; the accessors take it as
the parameter `full_crc32`, a predicate on tablespace flags. The global
`srv_page_size` is the parameter of the same name. -/

/-- Embedding of `buf_page_get_key_version(read_buf, fsp_flags)`. -/
def buf_page_get_key_version (full_crc32 : Nat → Bool) (read_buf : BytePtr)
    (fsp_flags : Nat) : Nat :=
  if full_crc32 fsp_flags
  then mach_read_from_4 (ptr_add read_buf FIL_PAGE_FCRC32_KEY_VERSION)
  else mach_read_from_4 (ptr_add read_buf FIL_PAGE_FILE_FLUSH_LSN_OR_KEY_VERSION)

/-- Embedding of `buf_page_is_compressed(read_buf, fsp_flags)`. -/
def buf_page_is_compressed (full_crc32 : Nat → Bool) (read_buf : BytePtr)
    (fsp_flags : Nat) : Bool :=
  let page_type := mach_read_from_2 (ptr_add read_buf FIL_PAGE_TYPE)
  if full_crc32 fsp_flags
  then (page_type &&& (1 <<< FIL_PAGE_COMPRESS_FCRC32_MARKER)) != 0
  else page_type == FIL_PAGE_PAGE_COMPRESSED

/-- Outcome of `buf_page_full_crc32_size`: the returned size and the contents
of the two output locations after the call. -/
structure Crc32Size where
  /-- The value returned. -/
  ret : Nat
  /-- The location `comp` points to, after the call. -/
  comp : Option Bool
  /-- The location `cr` points to, after the call. -/
  cr : Option Bool
deriving DecidableEq, Repr

/-- Store `true` through a nullable `bool*`: nothing happens for a null
pointer (`if (p) *p = true;`). -/
def store_true (p : Option Bool) : Option Bool :=
  match p with
  | none => none
  | some _ => some true

/-- Embedding of `buf_page_full_crc32_size(buf, comp, cr)`. -/
def buf_page_full_crc32_size (srv_page_size : Nat) (buf : BytePtr)
    (comp cr : Option Bool) : Crc32Size :=
  let t := mach_read_from_2 (ptr_add buf FIL_PAGE_TYPE) % UINT_RANGE
  let page_size := srv_page_size % UINT_RANGE
  if (t &&& (1 <<< FIL_PAGE_COMPRESS_FCRC32_MARKER)) = 0 then
    { ret := page_size, comp := comp, cr := cr }
  else
    let t := t &&& ((UINT_RANGE - 1) ^^^ (1 <<< FIL_PAGE_COMPRESS_FCRC32_MARKER))
    let t := (t <<< 8) % UINT_RANGE
    if t < page_size then
      { ret := t, comp := store_true comp, cr := cr }
    else
      { ret := page_size, comp := comp, cr := store_true cr }

/-- The page type field of a page: the two bytes at `FIL_PAGE_TYPE`. -/
def page_type_field (buf : BytePtr) : Nat :=
  mach_read_from_2 (ptr_add buf FIL_PAGE_TYPE)

/-- A page that is zero everywhere except for the two bytes of its type
field. -/
def page_with_type (hi lo : byte) : BytePtr := fun i =>
  if i = FIL_PAGE_TYPE then hi else if i = FIL_PAGE_TYPE + 1 then lo else 0

/-! ## Control-block states (buf0buf.h:99-123, 1436-1437) -/

/-- Embedding of `enum buf_page_state`, the states of a control block. -/
inductive buf_page_state where
  /-- A sentinel for the buffer pool watch. -/
  | BUF_BLOCK_POOL_WATCH
  /-- Contains a clean compressed page. -/
  | BUF_BLOCK_ZIP_PAGE
  /-- Contains a compressed page that is in the flush list. -/
  | BUF_BLOCK_ZIP_DIRTY
  /-- Is in the free list. -/
  | BUF_BLOCK_NOT_USED
  /-- State of a block returned by `buf_LRU_get_free_block`. -/
  | BUF_BLOCK_READY_FOR_USE
  /-- Contains a buffered file page. -/
  | BUF_BLOCK_FILE_PAGE
  /-- Contains some main memory object. -/
  | BUF_BLOCK_MEMORY
  /-- Hash index should be removed before putting to the free list. -/
  | BUF_BLOCK_REMOVE_HASH
deriving DecidableEq, Repr

open buf_page_state

/-- The enumerators of `enum buf_page_state` in the order of their
declaration. -/
def buf_page_state.enumerators : List buf_page_state :=
  [BUF_BLOCK_POOL_WATCH, BUF_BLOCK_ZIP_PAGE, BUF_BLOCK_ZIP_DIRTY,
   BUF_BLOCK_NOT_USED, BUF_BLOCK_READY_FOR_USE, BUF_BLOCK_FILE_PAGE,
   BUF_BLOCK_MEMORY, BUF_BLOCK_REMOVE_HASH]

/-- Integer value of an enumerator. No enumerator of `buf_page_state` has an
initialiser, so C gives the first one the value 0 and every other one the
value of its predecessor plus one: the value is the position in the
declaration. -/
def buf_page_state.toNat (s : buf_page_state) : Nat :=
  buf_page_state.enumerators.indexOf s

/-- The state, if any, whose enumerator has the value `n`. -/
def buf_page_state.ofNat? (n : Nat) : Option buf_page_state :=
  buf_page_state.enumerators.get? n

/-- Number of bits used for buffer page states (`BUF_PAGE_STATE_BITS`). -/
def BUF_PAGE_STATE_BITS : Nat := 3

/-! ## Control blocks (buf0buf.h:1439-1637, 1641-1817) -/

/-- Modelled from the spec: `BUF_IO_NONE` (buf0types.h), the value 0 of
`io_fix`, no pending I/O. -/
def BUF_IO_NONE : Nat := 0

/-- Modelled from the spec: `UNIV_ZIP_SIZE_SHIFT_MIN` (univ.i), the 2-logarithm
of the smallest compressed page size. -/
def UNIV_ZIP_SIZE_SHIFT_MIN : Nat := 10

/-- Modelled from the spec: `UNIV_ZIP_SIZE_MIN` (univ.i), the smallest
compressed page size, `1U << UNIV_ZIP_SIZE_SHIFT_MIN`. -/
def UNIV_ZIP_SIZE_MIN : Nat := 1 <<< UNIV_ZIP_SIZE_SHIFT_MIN

/-- Modelled from the spec: `PAGE_ZIP_SSIZE_BITS` (page0types.h), the width of
the bit-field `page_zip_des_t::ssize` that holds the size class. -/
def PAGE_ZIP_SSIZE_BITS : Nat := 3

/-- The part of `page_zip_des_t` used here: the size class `ssize`, 0 for a
page that is not compressed. -/
structure page_zip_des_t where
  /-- Size class (`unsigned ssize:PAGE_ZIP_SSIZE_BITS`). -/
  ssize : Nat
deriving DecidableEq, Repr

/-- The fields of `buf_page_t` that the modelled members read or write. -/
structure buf_page_t where
  /-- Count of how manyfold this block is currently bufferfixed
  (`Atomic_counter<uint32_t>`). -/
  buf_fix_count : Nat
  /-- Type of pending I/O operation, 0 for none. -/
  io_fix : Nat
  /-- Block state. -/
  state : buf_page_state
  /-- Compressed page descriptor. -/
  zip : page_zip_des_t
  /-- Log sequence number of the oldest unflushed modification, 0 if none. -/
  oldest_modification : Nat
deriving DecidableEq, Repr

/-- Embedding of `buf_page_t::fix()`: `buf_fix_count++` on a `uint32_t`. -/
def buf_page_t.fix (p : buf_page_t) : buf_page_t :=
  { p with buf_fix_count := (p.buf_fix_count + 1) % UINT_RANGE }

/-- Outcome of `buf_page_t::unfix()`. -/
structure UnfixResult where
  /-- Whether the debug assertion `ut_ad(count != 0)` holds. -/
  assert_ok : Bool
  /-- The value returned, `count - 1` as a `uint32_t`. -/
  ret : Nat
  /-- The descriptor after the decrement. -/
  page : buf_page_t
deriving DecidableEq, Repr

/-- Embedding of `buf_page_t::unfix()`: `count = buf_fix_count--` fetches the
old value and decrements the `uint32_t` counter, then the old value is
asserted nonzero and `count - 1` returned. -/
def buf_page_t.unfix (p : buf_page_t) : UnfixResult :=
  let count := p.buf_fix_count
  { assert_ok := count != 0
    ret := (count + UINT_RANGE - 1) % UINT_RANGE
    page := { p with buf_fix_count := (p.buf_fix_count + UINT_RANGE - 1) % UINT_RANGE } }

/-- Embedding of `buf_page_t::physical_size()`. The shift is computed in
`unsigned`; `srv_page_size` is the global of that name. -/
def buf_page_t.physical_size (srv_page_size : Nat) (p : buf_page_t) : Nat :=
  if p.zip.ssize != 0
  then ((UNIV_ZIP_SIZE_MIN >>> 1) <<< p.zip.ssize) % UINT_RANGE
  else srv_page_size

/-- Embedding of `buf_page_t::zip_size()`. The shift is computed in
`unsigned`. -/
def buf_page_t.zip_size (p : buf_page_t) : Nat :=
  if p.zip.ssize != 0
  then ((UNIV_ZIP_SIZE_MIN >>> 1) <<< p.zip.ssize) % UINT_RANGE
  else 0

/-- The part of `buf_block_t` used here: its page descriptor. -/
structure buf_block_t where
  /-- Page information; the first field of the block. -/
  page : buf_page_t
deriving DecidableEq, Repr

/-- Embedding of `buf_block_t::fix()`. -/
def buf_block_t.fix (b : buf_block_t) : buf_block_t :=
  { b with page := b.page.fix }

/-- Embedding of `buf_block_t::unfix()`: the result of `page.unfix()`. -/
def buf_block_t.unfix (b : buf_block_t) : UnfixResult :=
  b.page.unfix

/-- Embedding of `buf_block_t::physical_size()`. -/
def buf_block_t.physical_size (srv_page_size : Nat) (b : buf_block_t) : Nat :=
  b.page.physical_size srv_page_size

/-- Embedding of `buf_block_t::zip_size()`. -/
def buf_block_t.zip_size (b : buf_block_t) : Nat :=
  b.page.zip_size

/-- Modelled from the spec: `buf_block_get_state` (defined in buf0buf.ic, of
which only the declaration is at hand) gets the state of a block. -/
def buf_block_get_state (block : buf_block_t) : buf_page_state :=
  block.page.state

/-- Embedding of the macro `buf_block_state_valid(block)`; the comparisons
are on the integer values of the enumerators. -/
def buf_block_state_valid (block : buf_block_t) : Bool :=
  decide ((buf_block_get_state block).toNat ≥ BUF_BLOCK_NOT_USED.toNat)
    && decide ((buf_block_get_state block).toNat ≤ BUF_BLOCK_REMOVE_HASH.toNat)

/-! ## Pin and unpin call sequences -/

/-- A call on the pin counter of a descriptor. -/
inductive PinCall where
  /-- A call of `fix()`. -/
  | fix
  /-- A call of `unfix()`. -/
  | unfix
deriving DecidableEq, Repr

/-- Record of one executed call: the counter before and after it, the value
returned (`unfix` only) and whether its assertion held (`fix` has none). -/
structure PinStep where
  /-- The call made. -/
  call : PinCall
  /-- `buf_fix_count` before the call. -/
  before : Nat
  /-- `buf_fix_count` after the call. -/
  after : Nat
  /-- Return value of `unfix()`; `fix()` returns nothing. -/
  ret : Option Nat
  /-- Outcome of `ut_ad(count != 0)`. -/
  assert_ok : Bool
deriving DecidableEq, Repr

/-- Execute one call and record it. -/
def pin_step (c : PinCall) (p : buf_page_t) : buf_page_t × PinStep :=
  match c with
  | .fix =>
    (p.fix, { call := .fix, before := p.buf_fix_count,
              after := p.fix.buf_fix_count, ret := none, assert_ok := true })
  | .unfix =>
    (p.unfix.page, { call := .unfix, before := p.buf_fix_count,
                     after := p.unfix.page.buf_fix_count,
                     ret := some p.unfix.ret, assert_ok := p.unfix.assert_ok })

/-- Execute a sequence of calls in order on a descriptor; the result is the
final descriptor and the record of every call. -/
def run_calls : List PinCall → buf_page_t → buf_page_t × List PinStep
  | [], p => (p, [])
  | c :: cs, p =>
    let r := pin_step c p
    let rest := run_calls cs r.1
    (rest.1, r.2 :: rest.2)

/-- Number of `fix()` calls in a sequence. -/
def count_fix (cs : List PinCall) : Nat := cs.count .fix

/-- Number of `unfix()` calls in a sequence. -/
def count_unfix (cs : List PinCall) : Nat := cs.count .unfix

/-- What a recorded call must satisfy: the assertion held, a `fix()` raised
the counter by exactly one, an `unfix()` lowered a nonzero counter by exactly
one and returned the lowered value. -/
def PinStep.ok (s : PinStep) : Prop :=
  s.assert_ok = true ∧
  match s.call with
  | .fix => s.after = s.before + 1 ∧ s.ret = none
  | .unfix => s.before ≠ 0 ∧ s.after + 1 = s.before ∧ s.ret = some s.after

/-- A descriptor with the given pin count and state, everything else zero. -/
def mk_page (buf_fix_count : Nat) (state : buf_page_state) : buf_page_t :=
  { buf_fix_count := buf_fix_count, io_fix := BUF_IO_NONE, state := state,
    zip := { ssize := 0 }, oldest_modification := 0 }

/-! ## State transitions (buf0buf.h:895-910, 2411-2421) -/

/-- Modelled from the spec: `buf_page_set_state` (defined in buf0buf.ic, of
which only the declaration is at hand) sets the state of a block. The switch
on the old state admits the transitions the header lists,
NOT_USED => READY_FOR_USE, READY_FOR_USE => MEMORY, READY_FOR_USE => FILE_PAGE,
MEMORY => NOT_USED, and FILE_PAGE => NOT_USED when the block is neither
bufferfixed nor dirty nor I/O-fixed; any other transition is a fatal contract
violation, the result `none`. -/
def buf_page_set_state (bpage : buf_page_t) (state : buf_page_state) :
    Option buf_page_t :=
  let permitted : Bool :=
    match bpage.state with
    | BUF_BLOCK_NOT_USED => state == BUF_BLOCK_READY_FOR_USE
    | BUF_BLOCK_READY_FOR_USE =>
      state == BUF_BLOCK_MEMORY || state == BUF_BLOCK_FILE_PAGE
    | BUF_BLOCK_MEMORY => state == BUF_BLOCK_NOT_USED
    | BUF_BLOCK_FILE_PAGE =>
      state == BUF_BLOCK_NOT_USED && bpage.buf_fix_count == 0
        && bpage.oldest_modification == 0 && bpage.io_fix == BUF_IO_NONE
    | _ => false
  if permitted then some { bpage with state := state } else none

/-- Modelled from the spec: `buf_block_set_state` (defined in buf0buf.ic) sets
the state of the page descriptor of a block. -/
def buf_block_set_state (block : buf_block_t) (state : buf_page_state) :
    Option buf_block_t :=
  (buf_page_set_state block.page state).map fun p => { block with page := p }

/-- The transitions listed as permitted, as a relation on a descriptor and
the requested state. -/
def transition_listed (bpage : buf_page_t) (state : buf_page_state) : Prop :=
  (bpage.state = BUF_BLOCK_NOT_USED ∧ state = BUF_BLOCK_READY_FOR_USE) ∨
  (bpage.state = BUF_BLOCK_READY_FOR_USE ∧ state = BUF_BLOCK_MEMORY) ∨
  (bpage.state = BUF_BLOCK_READY_FOR_USE ∧ state = BUF_BLOCK_FILE_PAGE) ∨
  (bpage.state = BUF_BLOCK_MEMORY ∧ state = BUF_BLOCK_NOT_USED) ∨
  (bpage.state = BUF_BLOCK_FILE_PAGE ∧ state = BUF_BLOCK_NOT_USED ∧
    bpage.buf_fix_count = 0 ∧ bpage.oldest_modification = 0 ∧ bpage.io_fix = 0)

/-! ## LRU aging hint (buf0buf.h:520-549)

`buf_page_peek_if_too_old` and `buf_page_make_young` are only declared in the
header; the embedding takes them as parameters acting on a program state. -/

/-- Embedding of `buf_page_make_young_if_needed(buf_pool, bpage)`, in state
passing style. `UNIV_UNLIKELY` is a branch prediction hint and does not change
the condition. -/
def buf_page_make_young_if_needed {σ Pool Page : Type}
    (buf_page_peek_if_too_old : Pool → Page → σ → Bool × σ)
    (buf_page_make_young : Page → σ → σ)
    (buf_pool : Pool) (bpage : Page) (s : σ) : σ :=
  let r := buf_page_peek_if_too_old buf_pool bpage s
  if r.1 then buf_page_make_young bpage r.2 else r.2

/-- A program state together with the record of the pages on which
`buf_page_make_young` has been invoked, oldest first. -/
structure Recorded (σ Page : Type) where
  /-- The program state proper. -/
  state : σ
  /-- The arguments of the invocations of `buf_page_make_young` so far. -/
  made_young : List Page

/-- An implementation of `buf_page_make_young`, instrumented to record each
invocation. -/
def recording {σ Page : Type} (buf_page_make_young : Page → σ → σ) :
    Page → Recorded σ Page → Recorded σ Page :=
  fun bpage r =>
    { state := buf_page_make_young bpage r.state
      made_young := r.made_young ++ [bpage] }

/-- An implementation of `buf_page_peek_if_too_old` run on a recorded state;
it leaves the record alone. -/
def unrecorded {σ Pool Page : Type}
    (buf_page_peek_if_too_old : Pool → Page → σ → Bool × σ) :
    Pool → Page → Recorded σ Page → Bool × Recorded σ Page :=
  fun buf_pool bpage r =>
    ((buf_page_peek_if_too_old buf_pool bpage r.state).1,
     { state := (buf_page_peek_if_too_old buf_pool bpage r.state).2
       made_young := r.made_young })

end Buf0buf

/-!
INET4 / INET6 values (`plugin/type_inet/sql_type_inet.h`)

A `const char*` or `char*` is, as before, a total map from offsets to bytes; an
array member `char m_buffer[N]` is such a map of which only the offsets below
`N` belong to the array.
-/

namespace SqlTypeInet

/-- Memory seen through a `char*`: the byte found at each offset. -/
abbrev CharPtr := Nat → Fin 256

/-- The constant `IN_ADDR_SIZE`. -/
def IN_ADDR_SIZE : Nat := 4

/-- The constant `IN6_ADDR_SIZE`. -/
def IN6_ADDR_SIZE : Nat := 16

/-- The C library function `memcpy(dst, src, n)`: the memory at `dst` after
the `n` bytes at `src` have been copied to it. -/
def memcpy (dst src : CharPtr) (n : Nat) : CharPtr :=
  fun i => if i < n then src i else dst i

/-- The C library function `memcmp(s1, s2, n)`: zero when the first `n` bytes
agree, otherwise the difference of the first pair of bytes that differ, taken
as unsigned. -/
def memcmp (s1 s2 : CharPtr) : Nat → Int
  | 0 => 0
  | n + 1 =>
    if s1 0 = s2 0 then memcmp (fun i => s1 (i + 1)) (fun i => s2 (i + 1)) n
    else ((s1 0).val : Int) - ((s2 0).val : Int)

/-- Embedding of `class Inet4`: the 4 bytes of the address. -/
structure Inet4 where
  /-- The member `char m_buffer[IN_ADDR_SIZE]`. -/
  m_buffer : CharPtr

/-- Embedding of `class Inet6`: the 16 bytes of the address. -/
structure Inet6 where
  /-- The member `char m_buffer[IN6_ADDR_SIZE]`. -/
  m_buffer : CharPtr

/-- Embedding of `Inet4::binary_to_ipv4(str, length)`: the value returned and
the object afterwards. `sizeof(m_buffer)` is `IN_ADDR_SIZE`. -/
def Inet4.binary_to_ipv4 (self : Inet4) (str : CharPtr) (length : Nat) :
    Bool × Inet4 :=
  if length != IN_ADDR_SIZE then (true, self)
  else (false, { m_buffer := memcpy self.m_buffer str length })

/-- Embedding of `Inet6::binary_to_ipv6(str, length)`: the value returned and
the object afterwards. `sizeof(m_buffer)` is `IN6_ADDR_SIZE`. -/
def Inet6.binary_to_ipv6 (self : Inet6) (str : CharPtr) (length : Nat) :
    Bool × Inet6 :=
  if length != IN6_ADDR_SIZE then (true, self)
  else (false, { m_buffer := memcpy self.m_buffer str length })

/-- Outcome of a `to_binary(dst, dstsize)` call: whether its debug assertions
hold, and the destination memory afterwards. -/
structure ToBinary where
  /-- Whether every `DBUG_ASSERT` passed on the way holds. -/
  assert_ok : Bool
  /-- The memory at the destination pointer after the call. -/
  dst : CharPtr

/-- Outcome of a `cmp(str, length)` call: whether its debug assertion holds,
and the value returned. -/
structure Cmp where
  /-- Whether `DBUG_ASSERT(length == sizeof(m_buffer))` holds. -/
  assert_ok : Bool
  /-- The value returned. -/
  ret : Int

/-- Embedding of `Inet4::to_binary(char *dst, size_t dstsize)`. -/
def Inet4.to_binary (self : Inet4) (dst : CharPtr) (dstsize : Nat) : ToBinary :=
  { assert_ok := decide (dstsize ≥ IN_ADDR_SIZE)
    dst := memcpy dst self.m_buffer IN_ADDR_SIZE }

/-- Embedding of `Inet6::to_binary(char *str, size_t str_size)`. -/
def Inet6.to_binary (self : Inet6) (str : CharPtr) (str_size : Nat) : ToBinary :=
  { assert_ok := decide (str_size ≥ IN6_ADDR_SIZE)
    dst := memcpy str self.m_buffer IN6_ADDR_SIZE }

/-- Embedding of `Inet6::cmp(const char *str, size_t length)`. -/
def Inet6.cmp (self : Inet6) (str : CharPtr) (length : Nat) : Cmp :=
  { assert_ok := length == IN6_ADDR_SIZE
    ret := memcmp self.m_buffer str length }

/-- Embedding of `class Inet4_null`: an `Inet4` and the flag of its base class
`Null_flag`. -/
structure Inet4_null where
  /-- The base class `Inet4`. -/
  inet4 : Inet4
  /-- The flag held by the base class `Null_flag`. -/
  m_is_null : Bool

/-- Embedding of `class Inet6_null`: an `Inet6` and the flag of its base class
`Null_flag`. -/
structure Inet6_null where
  /-- The base class `Inet6`. -/
  inet6 : Inet6
  /-- The flag held by the base class `Null_flag`. -/
  m_is_null : Bool

/-- Modelled from the spec: `Null_flag::is_null` (the class is declared outside
this header) tells whether the value is NULL, the flag the constructor
received. -/
def Inet6_null.is_null (self : Inet6_null) : Bool := self.m_is_null

/-- Modelled from the spec: `Null_flag::is_null`, for `Inet4_null`. -/
def Inet4_null.is_null (self : Inet4_null) : Bool := self.m_is_null

/-- Embedding of the constructor `Inet4_null(const char *str, size_t length)`.
The base `Inet4` is built by the non-initializing constructor, its bytes being
whatever `uninit` holds, then `Null_flag` receives the result of
`binary_to_ipv4`. -/
def Inet4_null.of_binary (uninit : Inet4) (str : CharPtr) (length : Nat) :
    Inet4_null :=
  { inet4 := (uninit.binary_to_ipv4 str length).2
    m_is_null := (uninit.binary_to_ipv4 str length).1 }

/-- Embedding of the constructor `Inet6_null(const char *str, size_t length)`.
The base `Inet6` is built by the non-initializing constructor, its bytes being
whatever `uninit` holds, then `Null_flag` receives the result of
`binary_to_ipv6`. -/
def Inet6_null.of_binary (uninit : Inet6) (str : CharPtr) (length : Nat) :
    Inet6_null :=
  { inet6 := (uninit.binary_to_ipv6 str length).2
    m_is_null := (uninit.binary_to_ipv6 str length).1 }

/-- Embedding of `Inet6_null::to_binary(char *str, size_t str_size)`, which
goes through `to_inet6()` and its `DBUG_ASSERT(!is_null())`. -/
def Inet6_null.to_binary (self : Inet6_null) (str : CharPtr) (str_size : Nat) :
    ToBinary :=
  { assert_ok := !self.is_null && (self.inet6.to_binary str str_size).assert_ok
    dst := (self.inet6.to_binary str str_size).dst }

/-- The address `2001:db8::1` in binary, followed by zero bytes. -/
def sample_ipv6 : CharPtr := fun i =>
  if i = 0 then 0x20 else if i = 1 then 0x01 else if i = 2 then 0x0d
  else if i = 3 then 0xb8 else if i = 15 then 0x01 else 0

/-- Memory filled with the byte 0xAA. -/
def filled : CharPtr := fun _ => 0xAA

end SqlTypeInet

/-!
The upgrade client (`client/mysql_upgrade.c`)

Conventions of the embedding:
* the static variables of the program, the files it can see and the record of
  what it has done to the outside (`events`) form the `State`, passed explicitly;
* what the outside answers (the shell, the file system, the build constants)
  is the `Env`; an answer may depend on the number of events so far;
* a function that may end the process through `die` returns an `Outcome`;
* a `DYNAMIC_STRING`, a path or a message is a `String`; a raw `char` buffer is
  a `List Char`, a C string in it ending at the first NUL;
* allocation failures (`init_dynamic_string`) are not modelled.
-/

namespace MysqlUpgrade

/-! ## C strings -/

/-- The NUL character, which ends a C string. -/
def NUL : Char := Char.ofNat 0

/-- The C string found in a buffer: the characters before the first NUL. -/
def cstr (mem : List Char) : List Char :=
  mem.takeWhile (fun c => c != NUL)

/-- The C library function `strncmp(s1, s2, n)` on buffers; past the end of a
buffer a NUL is read. The characters compare as unsigned. -/
def strncmp : List Char → List Char → Nat → Int
  | _, _, 0 => 0
  | s1, s2, n + 1 =>
    if s1.headD NUL ≠ s2.headD NUL then
      ((s1.headD NUL).toNat : Int) - ((s2.headD NUL).toNat : Int)
    else if s1.headD NUL = NUL then 0
    else strncmp s1.tail s2.tail n

/-- The C library function `strstr(haystack, needle)`, as far as the program
uses it: whether the needle occurs in the haystack. -/
def strstr : List Char → List Char → Bool
  | [], needle => needle.isEmpty
  | c :: cs, needle => needle.isPrefixOf (c :: cs) || strstr cs needle

/-- The characters `fgets` takes from a stream when it may store at most
`room` of them: it stops after a newline and at the end of the stream. -/
def fgets_read : Nat → List Char → List Char
  | 0, _ => []
  | _ + 1, [] => []
  | room + 1, c :: cs => if c = '\n' then [c] else c :: fgets_read room cs

/-- The C library function `fgets(buf, size, stream)` for `size >= 2`: the
buffer afterwards, the characters read followed by a NUL; `none` is the NULL
returned when the stream is at its end and nothing is read. -/
def fgets (buf : List Char) (size : Nat) (stream : List Char) :
    Option (List Char) :=
  match fgets_read (size - 1) stream with
  | [] => none
  | c :: cs => some ((c :: cs) ++ [NUL] ++ buf.drop ((c :: cs).length + 1))

/-! ## State, environment and outcomes -/

/-- Something the program does to the outside. -/
inductive Event where
  /-- Text written to standard output. -/
  | stdout (text : String)
  /-- Text written to standard error. -/
  | stderr (text : String)
  /-- A command line handed to the shell with `popen`. -/
  | popen (cmd : String)
  /-- Data written to a file. -/
  | file_write (path : String) (data : List Char)
  /-- A file deleted. -/
  | file_delete (path : String)
  /-- A call of a library procedure whose effect is not modelled. -/
  | library (name : String)
deriving DecidableEq, Repr

/-- The static variables of `mysql_upgrade.c`, the files and the events. -/
structure State where
  /-- The static `phase`. -/
  phase : Int
  /-- The static `opt_verbose`, a `my_bool` (a `char`) used as a counter. -/
  opt_verbose : Int
  /-- The static `opt_silent`. -/
  opt_silent : Bool
  /-- The static `opt_systables_only`. -/
  opt_systables_only : Bool
  /-- The static `opt_write_binlog`. -/
  opt_write_binlog : Bool
  /-- The static `upgrade_from_mysql`. -/
  upgrade_from_mysql : Bool
  /-- The static `debug_check_flag`. -/
  debug_check_flag : Bool
  /-- The static `tty_password`. -/
  tty_password : Bool
  /-- The static buffer `opt_tmpdir`, as a string. -/
  opt_tmpdir : String
  /-- The dynamic string `ds_args`. -/
  ds_args : String
  /-- The dynamic string `conn_args`. -/
  conn_args : String
  /-- The buffer `upgrade_from_version`. -/
  upgrade_from_version : List Char
  /-- The buffer `mysql_path`. -/
  mysql_path : String
  /-- The buffer `mysqlcheck_path`. -/
  mysqlcheck_path : String
  /-- The buffer `defaults_file`. -/
  defaults_file : String
  /-- The static `cnf_file_path`, `none` for a null pointer. -/
  cnf_file_path : Option String
  /-- The files the program can see, by path. -/
  files : List (String × List Char)
  /-- What the program has done so far, oldest first. -/
  events : List Event
deriving DecidableEq, Repr

/-- What the outside answers. -/
structure Env where
  /-- The build constant `MYSQL_SERVER_VERSION`. -/
  MYSQL_SERVER_VERSION : String
  /-- The build constant `VER`. -/
  VER : String
  /-- The build constant `SYSTEM_TYPE`. -/
  SYSTEM_TYPE : String
  /-- The build constant `MACHINE_TYPE`. -/
  MACHINE_TYPE : String
  /-- The name of the program, `my_progname`. -/
  my_progname : String
  /-- Whether the build defines `WITH_WSREP`. -/
  with_wsrep : Bool
  /-- The text `dynstr_append_os_quoted` appends for an argument. -/
  os_quoted : String → String
  /-- The path `fn_format` makes of a file name and a directory. -/
  fn_format : String → String → String
  /-- Running a command with `popen`, reading all its output and closing it:
  `none` when `popen` fails, else the output and the value of `pclose`. -/
  shell : Nat → String → Option (String × Int)
  /-- The path `create_temp_file` returns for a directory and a name stem,
  `none` when it fails. -/
  create_temp_file : Nat → String → String → Option String
  /-- Whether a `my_write` or `my_fwrite` succeeds. -/
  write_ok : Nat → Bool
  /-- Whether `my_fopen` of a path succeeds, apart from the file having to
  exist for reading. -/
  fopen_ok : Nat → String → Bool
  /-- Whether a `my_fclose` succeeds. -/
  fclose_ok : Nat → Bool
  /-- The value of `errno` when the program prints it. -/
  errno : Nat → Int

/-- How a function ends: it returns a value, or the process exits. -/
inductive Outcome (α : Type) where
  /-- The function returns `val`, leaving the state `s`. -/
  | ret (val : α) (s : State)
  /-- The process exits with `code`, the state having been `s`. -/
  | exit (code : Nat) (s : State)

/-- Sequencing: continue with `f` after a return, stay exited otherwise. -/
def Outcome.bind {α β : Type} (o : Outcome α) (f : α → State → Outcome β) :
    Outcome β :=
  match o with
  | .ret a s => f a s
  | .exit c s => .exit c s

/-- The state an outcome carries. -/
def Outcome.state {α : Type} : Outcome α → State
  | .ret _ s => s
  | .exit _ s => s

/-- The value an outcome returns, `none` when the process exits. -/
def Outcome.val? {α : Type} : Outcome α → Option α
  | .ret a _ => some a
  | .exit _ _ => none

/-- Record an event. -/
def State.log (s : State) (e : Event) : State :=
  { s with events := s.events ++ [e] }

/-- The content of a file, `none` if there is no such file. -/
def State.read_file (s : State) (path : String) : Option (List Char) :=
  s.files.lookup path

/-- Replace the content of a file, creating it if need be. -/
def State.set_file (s : State) (path : String) (data : List Char) : State :=
  { s with files := (path, data) :: s.files.filter (fun f => f.1 != path) }

/-- Remove a file. -/
def State.remove_file (s : State) (path : String) : State :=
  { s with files := s.files.filter (fun f => f.1 != path) }

/-- The command lines handed to the shell so far. -/
def State.commands (s : State) : List String :=
  s.events.filterMap fun e =>
    match e with
    | .popen cmd => some cmd
    | _ => none

/-- The constant `FN_REFLEN` (my_global.h), the size of a path buffer. -/
def FN_REFLEN : Nat := 512

/-- The static constant `phases_total`. -/
def phases_total : Int := 7

/-- The macro `WEXITSTATUS(stat_val)`, `(unsigned)(stat_val) >> 8`. -/
def WEXITSTATUS (stat_val : Int) : Nat :=
  (stat_val % 2 ^ 32).toNat >>> 8

/-! ## Output and running tools (mysql_upgrade.c:173-590) -/

/-- Embedding of `free_used_memory()`: the file named by `cnf_file_path` is
deleted; freeing memory is not modelled. -/
def free_used_memory (s : State) : State :=
  match s.cnf_file_path with
  | some path => (s.remove_file path).log (.file_delete path)
  | none => s

/-- Embedding of `die(fmt, ...)` with the message already formatted, `none`
for a null `fmt`: the process exits with code 1. -/
def die {α : Type} (msg : Option String) (s : State) : Outcome α :=
  match msg with
  | some m =>
    .exit 1 (free_used_memory (s.log (.stderr ("FATAL ERROR: " ++ m ++ "\n"))))
  | none => .exit 1 (free_used_memory s)

/-- Embedding of `verbose(fmt, ...)` with the message already formatted. -/
def verbose (msg : String) (s : State) : State :=
  if s.opt_silent then s else s.log (.stdout (msg ++ "\n"))

/-- Embedding of `run_command(cmd, ds_res)`: the exit status and the result
string afterwards, `none` for a null `ds_res`. -/
def run_command (env : Env) (cmd : String) (ds_res : Option String)
    (s : State) : Outcome (Nat × Option String) :=
  let s1 := if s.opt_verbose ≥ 4 then s.log (.stdout (cmd ++ "\n")) else s
  let s2 := s1.log (.popen cmd)
  match env.shell s1.events.length cmd with
  | none => die (some ("popen(\"" ++ cmd ++ "\", \"r\") failed")) s2
  | some (output, error) =>
    match ds_res with
    | some ds => .ret (WEXITSTATUS error, some (ds ++ output)) s2
    | none => .ret (WEXITSTATUS error, none) (s2.log (.stdout output))

/-- The command line `run_tool` builds in `ds_cmdline`, for a build that is
not for Windows: the quoted tool path, then every argument, each followed by
a blank. -/
def tool_cmdline (env : Env) (tool_path : String) (args : List String) : String :=
  args.foldl (fun acc arg => acc ++ arg ++ " ") (env.os_quoted tool_path ++ " ")

/-- Embedding of `run_tool(tool_path, ds_res, ...)`, the variable arguments
given as a list. -/
def run_tool (env : Env) (tool_path : String) (ds_res : Option String)
    (args : List String) (s : State) : Outcome (Nat × Option String) :=
  run_command env (tool_cmdline env tool_path args) ds_res s

/-- The statement `run_query` puts first when the binary log is off. -/
def sql_log_bin (env : Env) : String :=
  if env.with_wsrep then "SET SQL_LOG_BIN=0, WSREP_ON=OFF;" else "SET SQL_LOG_BIN=0;"

/-- Embedding of `run_query(query, ds_res, force)`: the exit status of the
`mysql` client and the result string afterwards. -/
def run_query (env : Env) (query : String) (ds_res : Option String)
    (force : Bool) (s : State) : Outcome (Nat × Option String) :=
  match env.create_temp_file s.events.length s.opt_tmpdir "sql" with
  | none => die (some "Failed to create temporary file for defaults") s
  | some query_file_path =>
    let s0 := s.set_file query_file_path []
    let head := if s.opt_write_binlog then "" else sql_log_bin env
    if !s.opt_write_binlog && !env.write_ok s0.events.length then
      die (some ("Failed to write to '" ++ query_file_path ++ "'"))
        ((s0.remove_file query_file_path).log (.file_delete query_file_path))
    else
      let s1 :=
        if s.opt_write_binlog then s0
        else (s0.set_file query_file_path head.toList).log
          (.file_write query_file_path head.toList)
      if !env.write_ok s1.events.length then
        die (some ("Failed to write to '" ++ query_file_path ++ "'"))
          ((s1.remove_file query_file_path).log (.file_delete query_file_path))
      else
        let s2 := (s1.set_file query_file_path (head ++ query).toList).log
          (.file_write query_file_path query.toList)
        (run_tool env s.mysql_path ds_res
          [s.defaults_file, "--database=mysql", "--batch",
           if force then "--force" else "--skip-force",
           if ds_res.isSome || s.opt_silent then "--silent" else "",
           "<", query_file_path, "2>&1"] s2).bind fun r s3 =>
          .ret r ((s3.remove_file query_file_path).log (.file_delete query_file_path))

/-! ## The upgrade info file (mysql_upgrade.c:72, 592-743) -/

/-- Size of the buffer `upgrade_from_version`,
`sizeof("10.20.456-MariaDB") + 1`. -/
def upgrade_from_version_size : Nat := ("10.20.456-MariaDB".length + 1) + 1

/-- Embedding of `extract_variable_from_show(ds, value)`: the value copied,
`none` when 1 is returned for an unexpected result. -/
def extract_variable_from_show (ds : String) : Option String :=
  match ds.toList.dropWhile (fun c => c != '\t') with
  | [] => none
  | _ :: value_start =>
    if value_start.contains '\n' then
      some (String.mk ((value_start.takeWhile (fun c => c != '\n')).take FN_REFLEN))
    else none

/-- Embedding of `get_upgrade_info_file_name(name)`: the name, `none` when 1
is returned because the query failed. -/
def get_upgrade_info_file_name (env : Env) (s : State) : Outcome (Option String) :=
  (run_query env "show variables like 'datadir'" (some "") false s).bind fun r s1 =>
    if r.1 ≠ 0 then .ret none s1
    else
      match extract_variable_from_show (r.2.getD "") with
      | none => .ret none s1
      | some name => .ret (some (env.fn_format "mysql_upgrade_info" name)) s1

/-- The comparison that ends `upgrade_already_done`:
`strncmp(upgrade_from_version, MYSQL_SERVER_VERSION,
sizeof(MYSQL_SERVER_VERSION)-1) == 0`, as an `int`. -/
def version_matches (env : Env) (upgrade_from_version : List Char) : Nat :=
  if strncmp upgrade_from_version env.MYSQL_SERVER_VERSION.toList
      env.MYSQL_SERVER_VERSION.length = 0 then 1 else 0

/-- Embedding of `upgrade_already_done(flags)`; the flags only select error
reporting. -/
def upgrade_already_done (env : Env) (_flags : Nat) (s : State) : Outcome Nat :=
  (get_upgrade_info_file_name env s).bind fun name s1 =>
    match name with
    | none => .ret 0 s1
    | some upgrade_info_file =>
      match (if env.fopen_ok s1.events.length upgrade_info_file
             then s1.read_file upgrade_info_file else none) with
      | none => .ret 0 s1
      | some content =>
        let zeroed := List.replicate upgrade_from_version_size NUL
        match fgets zeroed upgrade_from_version_size content with
        | none => .ret 0 { s1 with upgrade_from_version := zeroed }
        | some buf =>
          let s2 := { s1 with upgrade_from_version := buf }
          if !env.fclose_ok s2.events.length then .ret 0 s2
          else .ret (version_matches env buf) s2

/-- Embedding of `create_mysql_upgrade_info_file()`. -/
def create_mysql_upgrade_info_file (env : Env) (s : State) : Outcome Unit :=
  (get_upgrade_info_file_name env s).bind fun name s1 =>
    match name with
    | none => .ret () s1
    | some upgrade_info_file =>
      if !env.fopen_ok s1.events.length upgrade_info_file then
        .ret () (s1.log (.stderr ("Could not create the upgrade info file '"
          ++ upgrade_info_file ++ "' in the MariaDB Servers datadir, errno: "
          ++ toString (env.errno s1.events.length) ++ "\n")))
      else
        let s2 := s1.set_file upgrade_info_file []
        let s3 :=
          if env.write_ok s2.events.length then
            (s2.set_file upgrade_info_file
                (env.MYSQL_SERVER_VERSION.toList ++ [NUL])).log
              (.file_write upgrade_info_file
                (env.MYSQL_SERVER_VERSION.toList ++ [NUL]))
          else s2
        (upgrade_already_done env 16 s3).bind fun done s4 =>
          if done = 0 then
            .ret () (s4.log (.stderr ("Upgrade file '" ++ upgrade_info_file
              ++ "' was not properly created. Got error errno while checking file content: "
              ++ toString (env.errno s4.events.length) ++ "\n")))
          else .ret () s4

/-! ## The phases run through `mysqlcheck` (mysql_upgrade.c:745-1006) -/

/-- Embedding of `print_conn_args(tool_name)`. -/
def print_conn_args (tool_name : String) (s : State) : State :=
  if s.opt_verbose < 2 then s
  else if s.conn_args.length ≠ 0 then
    verbose ("Running '" ++ tool_name ++ "' with connection arguments: "
      ++ s.conn_args) s
  else
    verbose ("Running '" ++ tool_name ++ " with default connection arguments") s

/-- The text of `"Phase %d/%d: "` for the phase counter of a state. -/
def phase_text (s : State) : String :=
  "Phase " ++ toString s.phase ++ "/" ++ toString phases_total ++ ": "

/-- The effect of `++phase` among the arguments of a call. -/
def next_phase (s : State) : State :=
  { s with phase := s.phase + 1 }

/-- Embedding of `run_mysqlcheck_upgrade(mysql_db_only)`: the value returned,
the exit status of `mysqlcheck` when it is run. -/
def run_mysqlcheck_upgrade (env : Env) (mysql_db_only : Bool) (s : State) :
    Outcome Nat :=
  let what := if mysql_db_only then "mysql database" else "tables"
  let arg1 := if mysql_db_only then "--databases" else "--all-databases"
  let arg2 := if mysql_db_only then "mysql" else "--skip-database=mysql"
  if s.opt_systables_only && !mysql_db_only then
    .ret 0 (verbose (phase_text (next_phase s) ++ "Checking and upgrading "
      ++ what ++ "... Skipped") (next_phase s))
  else
    let s1 := verbose (phase_text (next_phase s) ++ "Checking and upgrading "
      ++ what) (next_phase s)
    let s2 := print_conn_args "mysqlcheck" s1
    (run_tool env s.mysqlcheck_path none
      [s.defaults_file, "--check-upgrade", "--auto-repair",
       if !s.opt_silent || s.opt_verbose ≥ 1 then "--verbose" else "",
       if s.opt_verbose ≥ 2 then "--verbose" else "",
       if s.opt_verbose ≥ 3 then "--verbose" else "",
       if s.opt_silent then "--silent" else "",
       if s.opt_write_binlog then "--write-binlog" else "--skip-write-binlog",
       arg1, arg2, "2>&1"] s2).bind fun r s3 => .ret r.1 s3

/-- Embedding of `run_mysqlcheck_fixnames()`. -/
def run_mysqlcheck_fixnames (env : Env) (s : State) : Outcome Nat :=
  if s.opt_systables_only then
    .ret 0 (verbose (phase_text (next_phase s)
      ++ "Fixing table and database names ... Skipped") (next_phase s))
  else
    let s1 := verbose (phase_text (next_phase s)
      ++ "Fixing table and database names") (next_phase s)
    let s2 := print_conn_args "mysqlcheck" s1
    (run_tool env s.mysqlcheck_path none
      [s.defaults_file, "--all-databases", "--fix-db-names", "--fix-table-names",
       if s.opt_verbose ≥ 1 then "--verbose" else "",
       if s.opt_verbose ≥ 2 then "--verbose" else "",
       if s.opt_verbose ≥ 3 then "--verbose" else "",
       if s.opt_silent then "--silent" else "",
       if s.opt_write_binlog then "--write-binlog" else "--skip-write-binlog",
       "2>&1"] s2).bind fun r s3 => .ret r.1 s3

/-- Embedding of `get_line(line)` on the rest of a string: the rest after the
next newline. -/
def get_line (line : List Char) : List Char :=
  match line.dropWhile (fun c => c != '\n') with
  | [] => []
  | _ :: rest => rest

/-- Embedding of `from_before_10_1()`. -/
def from_before_10_1 (env : Env) (s : State) : Outcome Bool :=
  if s.upgrade_from_version.headD NUL ≠ NUL then
    .ret (s.upgrade_from_version.getD 1 NUL == '.'
      || decide (strncmp s.upgrade_from_version "10.1.".toList 5 < 0)) s
  else
    (run_query env "show create table mysql.user" (some "") false s).bind fun r s1 =>
      if r.1 ≠ 0 || strstr (r.2.getD "").toList "default_role".toList then
        .ret false s1
      else .ret true (verbose "Upgrading from a version before MariaDB-10.1" s1)

/-- The `do ... while (*line)` loop of `install_used_engines` over the lines
of the query result, `line` being the rest of the result; every turn consumes
a character, so the length of the result is fuel enough. -/
def install_loop (env : Env) : Nat → List Char → State → Outcome Unit
  | 0, _, s => .ret () s
  | fuel + 1, line, s =>
    let engine := String.mk (line.takeWhile (fun c => c != '\n'))
    let s1 := verbose ("installing plugin for '" ++ engine ++ "' storage engine") s
    let buf := String.mk (("install soname 'ha_" ++ engine ++ "'").toList.take 511)
    (run_query env buf none true s1).bind fun r s2 =>
      let s3 := if r.1 ≠ 0 then s2.log (.stderr ("... can't " ++ buf ++ "\n")) else s2
      if (get_line line).isEmpty then .ret () s3
      else install_loop env fuel (get_line line) s3

/-- Embedding of `install_used_engines()`. -/
def install_used_engines (env : Env) (s : State) : Outcome Nat :=
  if s.opt_systables_only then
    .ret 0 (verbose (phase_text (next_phase s)
      ++ "Installing used storage engines... Skipped") (next_phase s))
  else
    (from_before_10_1 env s).bind fun before s1 =>
      if !before then
        .ret 0 (verbose (phase_text (next_phase s1)
          ++ "Installing used storage engines... Skipped") (next_phase s1))
      else
        let s2 := verbose (phase_text (next_phase s1)
          ++ "Installing used storage engines") (next_phase s1)
        let s3 := verbose "Checking for tables with unknown storage engine" s2
        (run_query env
          ("SELECT DISTINCT LOWER(engine) AS c1 FROM information_schema.tables"
            ++ " WHERE table_comment LIKE 'Unknown storage engine%'"
            ++ " ORDER BY c1") (some "") true s3).bind fun r s4 =>
          if (r.2.getD "").length ≠ 0 then
            (install_loop env (r.2.getD "").length (r.2.getD "").toList s4).bind
              fun _ s5 => .ret 0 s5
          else .ret 0 s4

/-! ## Option handling (mysql_upgrade.c:75-368) -/

/-- The identifier of an option, `my_option::id`: a character for the options
that have a short form, otherwise an enumerator of `enum options_client`
(client_priv.h). The enumerators `get_one_option` names are listed, the others
are `other`. `OPT_SILENT` is defined as `OPT_MAX_CLIENT_OPTION`. -/
inductive OptId where
  /-- An option identified by a character. -/
  | chr (c : Char)
  /-- The enumerator `OPT_SILENT`. -/
  | OPT_SILENT
  /-- The enumerator `OPT_WRITE_BINLOG`. -/
  | OPT_WRITE_BINLOG
  /-- The enumerator `OPT_MYSQL_PROTOCOL`. -/
  | OPT_MYSQL_PROTOCOL
  /-- The enumerator `OPT_PLUGIN_DIR`. -/
  | OPT_PLUGIN_DIR
  /-- The enumerator `OPT_DEFAULT_AUTH`. -/
  | OPT_DEFAULT_AUTH
  /-- Any other enumerator, by its value. -/
  | other (n : Nat)
deriving DecidableEq, Repr

/-- The fields of `struct my_option` that `get_one_option` reads. -/
structure my_option where
  /-- Name of the option. -/
  name : String
  /-- Identifier of the option. -/
  id : OptId
deriving DecidableEq, Repr

/-- The `char *argument` of `get_one_option`. -/
inductive Argument where
  /-- A null pointer: the option came without an argument. -/
  | null
  /-- The pointer `disabled_my_option`: the option came as `--skip-...` or
  `--disable-...`. -/
  | disabled
  /-- A pointer to writable memory that holds the argument as a C string. -/
  | mem (m : List Char)
deriving DecidableEq, Repr

/-- The C string an argument points to, `none` for a null pointer.
Modelled from the spec: `disabled_my_option` (my_getopt.c) points to the
string "0". -/
def Argument.text : Argument → Option String
  | .null => none
  | .disabled => some "0"
  | .mem m => some (String.mk (cstr m))

/-- Embedding of `add_one_option_cmd_line(ds, opt, arg)`: the dynamic string
afterwards. -/
def add_one_option_cmd_line (env : Env) (ds : String) (opt : my_option)
    (arg : Option String) : String :=
  match arg with
  | some a => ds ++ "--" ++ opt.name ++ "=" ++ env.os_quoted a ++ " "
  | none => ds ++ "--" ++ opt.name ++ " "

/-- Embedding of `add_one_option_cnf_file(ds, opt, arg)`: the dynamic string
afterwards. -/
def add_one_option_cnf_file (env : Env) (ds : String) (opt : my_option)
    (arg : Option String) : String :=
  match arg with
  | some a => ds ++ opt.name ++ "=" ++ env.os_quoted a ++ "\n"
  | none => ds ++ opt.name ++ "\n"

/-- The loop `while (*argument) *argument++= 'x';` on the memory the argument
points to. -/
def destroy_argument : List Char → List Char
  | [] => []
  | c :: cs => if c = NUL then c :: cs else 'x' :: destroy_argument cs

/-- The increment `opt_verbose++` of a `my_bool`, a `char` taken as signed and
wrapping around. -/
def my_bool_incr (v : Int) : Int :=
  (v + 1 + 128) % 256 - 128

/-- The line both `--help` and `--version` print first. -/
def version_line (env : Env) : String :=
  env.my_progname ++ "  Ver " ++ env.VER ++ " Distrib " ++ env.MYSQL_SERVER_VERSION
    ++ ", for " ++ env.SYSTEM_TYPE ++ " (" ++ env.MACHINE_TYPE ++ ")\n"

/-- The statements shared by `case 'k'` and `case 'v'` of `get_one_option`,
which `case 'b'` and `case 'd'` fall through to. -/
def verbose_case (argument : Argument) (s : State) : State :=
  let s1 := { s with opt_verbose := my_bool_incr s.opt_verbose }
  if argument = Argument.disabled then
    { s1 with opt_verbose := 0, opt_silent := true }
  else s1

/-- Embedding of `get_one_option(opt, argument, filename)`: the value returned
and what the memory behind `argument` holds afterwards. -/
def get_one_option (env : Env) (opt : my_option) (argument : Argument)
    (s : State) : Outcome (Nat × Argument) :=
  if opt.id = .chr '?' then
    die none ((((((s.log (.stdout (version_line env))).log
      (.library "puts(ORACLE_WELCOME_COPYRIGHT_NOTICE)")).log
      (.stdout "MariaDB utility for upgrading databases to new MariaDB versions.\n")).log
      (.library "print_defaults")).log (.stdout "\n")).log
      (.library "my_print_help, my_print_variables"))
  else if opt.id = .chr '#' then
    .ret (0, argument) { s.log (.library "DBUG_PUSH") with debug_check_flag := true }
  else if opt.id = .chr 'p' then
    match argument with
    | .null => .ret (0, argument) { s with tty_password := true }
    | .disabled =>
      .ret (0, argument)
        { s with ds_args := add_one_option_cnf_file env s.ds_args opt (some "")
                 tty_password := false }
    | .mem m =>
      .ret (0, .mem (destroy_argument m))
        { s with ds_args := add_one_option_cnf_file env s.ds_args opt
                   (Argument.mem m).text
                 tty_password := false }
  else if opt.id = .chr 't' then
    .ret (0, argument)
      { s with opt_tmpdir := String.mk ((argument.text.getD "").toList.take FN_REFLEN) }
  else if opt.id = .chr 'b' ∨ opt.id = .chr 'd' then
    .ret (0, argument)
      (verbose_case argument
        (s.log (.stderr (env.my_progname ++ ": the '--"
          ++ (if opt.id = .chr 'b' then "basedir" else "datadir")
          ++ "' option is always ignored\n"))))
  else if opt.id = .chr 'k' ∨ opt.id = .chr 'v' then
    .ret (0, argument) (verbose_case argument s)
  else if opt.id = .chr 'V' then
    die none (s.log (.stdout (version_line env)))
  else if opt.id = .OPT_SILENT then
    .ret (0, argument) { s with opt_verbose := 0 }
  else if opt.id = .chr 'f' ∨ opt.id = .chr 's' ∨ opt.id = .OPT_WRITE_BINLOG then
    .ret (0, argument) s
  else if opt.id = .chr 'h' ∨ opt.id = .chr 'W' ∨ opt.id = .chr 'P'
      ∨ opt.id = .chr 'S' ∨ opt.id = .OPT_MYSQL_PROTOCOL
      ∨ opt.id = .OPT_PLUGIN_DIR ∨ opt.id = .OPT_DEFAULT_AUTH then
    .ret (0, argument)
      { s with conn_args := add_one_option_cmd_line env s.conn_args opt argument.text
               ds_args := add_one_option_cnf_file env s.ds_args opt argument.text }
  else
    .ret (0, argument)
      { s with ds_args := add_one_option_cnf_file env s.ds_args opt argument.text }

/-- The entry of `my_long_options` for `--password`. -/
def password_option : my_option := { name := "password", id := .chr 'p' }

/-- The entry of `my_long_options` for `--verbose`. -/
def verbose_option : my_option := { name := "verbose", id := .chr 'v' }

/-- The entry of `my_long_options` for `--version-check`. -/
def version_check_option : my_option := { name := "version-check", id := .chr 'k' }

/-- The entry of `my_long_options` for `--basedir`. -/
def basedir_option : my_option := { name := "basedir", id := .chr 'b' }

/-- The entry of `my_long_options` for `--datadir`. -/
def datadir_option : my_option := { name := "datadir", id := .chr 'd' }

/-- The entry of `my_long_options` for `--silent`. -/
def silent_option : my_option := { name := "silent", id := .OPT_SILENT }

/-! ## Version numbers (mysql_upgrade.c:1085-1134) -/

/-- Number of values of a C `uint`. -/
def UINT_VALUES : Nat := 2 ^ 32

/-- Number of values of a C `ulong`, 64 bits wide as on the usual targets
other than Windows. -/
def ULONG_VALUES : Nat := 2 ^ 64

/-- The C library predicate `isspace` in the "C" locale. -/
def isspace (c : Char) : Bool :=
  c == ' ' || (9 ≤ c.toNat && c.toNat ≤ 13)

/-- The C library predicate `isdigit`. -/
def isdigit (c : Char) : Bool :=
  48 ≤ c.toNat && c.toNat ≤ 57

/-- The digit loop of `strtoul` in base 10: the number read so far is
continued over the leading digits of the string; the result is the number and
the rest of the string. -/
def strtoul_digits : List Char → Nat → Nat × List Char
  | [], acc => (acc, [])
  | c :: cs, acc =>
    if isdigit c then strtoul_digits cs (10 * acc + (c.toNat - 48))
    else (acc, c :: cs)

/-- The C library function `strtoul(nptr, &endptr, 10)`: the value returned
and the end pointer, as the rest of the string. White space and a sign are
skipped; without a digit the value is 0 and the end pointer is `nptr`; a value
out of range gives `ULONG_MAX`; a minus sign negates in `unsigned long`. -/
def strtoul (nptr : List Char) : Nat × List Char :=
  let p := nptr.dropWhile isspace
  let negative := p.headD NUL == '-'
  let q := if p.headD NUL == '-' || p.headD NUL == '+' then p.tail else p
  if isdigit (q.headD NUL) then
    let r := strtoul_digits q 0
    if r.1 ≥ ULONG_VALUES then (ULONG_VALUES - 1, r.2)
    else if negative then ((ULONG_VALUES - r.1) % ULONG_VALUES, r.2)
    else (r.1, r.2)
  else (0, nptr)

/-- Embedding of `calc_server_version(some_version)`. The string is given by
its characters; `end_point + 1` is the rest after one more character (at the
end of the string the rest stays empty). -/
def calc_server_version (some_version : List Char) : Nat :=
  let point := some_version
  let major := (strtoul point).1 % UINT_VALUES
  let point := (strtoul point).2.drop 1
  let minor := (strtoul point).1 % UINT_VALUES
  let point := (strtoul point).2.drop 1
  let version := (strtoul point).1 % UINT_VALUES
  (major * 10000 % ULONG_VALUES + (minor * 100 + version) % UINT_VALUES) % ULONG_VALUES

/-- The value of a string of decimal digits. -/
def decimal_value (digits : List Char) : Nat :=
  digits.foldl (fun acc c => 10 * acc + (c.toNat - 48)) 0

/-- A state for examples: everything off or empty, `mysql` and `mysqlcheck`
found on the path. -/
def initial_state : State :=
  { phase := 0, opt_verbose := 0, opt_silent := false,
    opt_systables_only := false, opt_write_binlog := false,
    upgrade_from_mysql := false, debug_check_flag := false,
    tty_password := false, opt_tmpdir := "", ds_args := "", conn_args := "",
    upgrade_from_version := List.replicate upgrade_from_version_size NUL,
    mysql_path := "mysql", mysqlcheck_path := "mysqlcheck",
    defaults_file := "--defaults-file=/tmp/mysql_upgrade-cnf",
    cnf_file_path := none, files := [], events := [] }

/-- An environment for examples: a build of the given server version; every
command succeeds and prints the line that answers a query for `datadir`;
temporary files are created in `/tmp`; every file operation succeeds. -/
def sample_env (version : String) : Env :=
  { MYSQL_SERVER_VERSION := version, VER := "1.3a", SYSTEM_TYPE := "Linux",
    MACHINE_TYPE := "x86_64", my_progname := "mysql_upgrade",
    with_wsrep := false,
    os_quoted := fun a => "'" ++ a ++ "'",
    fn_format := fun name dir => dir ++ name,
    shell := fun _ _ => some ("datadir\t/var/lib/mysql/\n", 0),
    create_temp_file := fun n _ stem => some ("/tmp/" ++ stem ++ toString n),
    write_ok := fun _ => true,
    fopen_ok := fun _ _ => true,
    fclose_ok := fun _ => true,
    errno := fun _ => 0 }

end MysqlUpgrade

namespace Buf0buf

open buf_page_state

/-! ## Helper lemmas on the big-endian reads -/

theorem mach_read_from_2_eq (b : BytePtr) :
    mach_read_from_2 b = (b 0).val * 256 + (b 1).val := by
  unfold mach_read_from_2
  have h1 : (b 1).val < 2 ^ 8 := (b 1).isLt
  rw [Nat.shiftLeft_eq, Nat.mul_comm, ← Nat.mul_add_lt_is_or h1]

theorem mach_read_from_2_lt (b : BytePtr) : mach_read_from_2 b < 2 ^ 16 := by
  rw [mach_read_from_2_eq]
  have h0 := (b 0).isLt
  have h1 := (b 1).isLt
  omega

theorem mach_read_from_4_eq (b : BytePtr) :
    mach_read_from_4 b
      = (b 0).val * 2 ^ 24 + (b 1).val * 2 ^ 16 + (b 2).val * 2 ^ 8 + (b 3).val := by
  have hb1 := (b 1).isLt
  have hb2 := (b 2).isLt
  have hb3 := (b 3).isLt
  have h3 : ((b 2).val <<< 8) ||| (b 3).val = 2 ^ 8 * (b 2).val + (b 3).val := by
    rw [Nat.shiftLeft_eq, Nat.mul_comm, ← Nat.mul_add_lt_is_or (by omega)]
  have h2 : ((b 1).val <<< 16) ||| (2 ^ 8 * (b 2).val + (b 3).val)
      = 2 ^ 16 * (b 1).val + (2 ^ 8 * (b 2).val + (b 3).val) := by
    rw [Nat.shiftLeft_eq, Nat.mul_comm, ← Nat.mul_add_lt_is_or (by omega)]
  have h1 : ((b 0).val <<< 24) ||| (2 ^ 16 * (b 1).val + (2 ^ 8 * (b 2).val + (b 3).val))
      = 2 ^ 24 * (b 0).val + (2 ^ 16 * (b 1).val + (2 ^ 8 * (b 2).val + (b 3).val)) := by
    rw [Nat.shiftLeft_eq, Nat.mul_comm, ← Nat.mul_add_lt_is_or (by omega)]
  unfold mach_read_from_4
  rw [Nat.lor_assoc, Nat.lor_assoc, h3, h2, h1]
  omega

theorem page_type_field_eq (buf : BytePtr) :
    page_type_field buf
      = (buf FIL_PAGE_TYPE).val * 256 + (buf (FIL_PAGE_TYPE + 1)).val := by
  unfold page_type_field
  rw [mach_read_from_2_eq]
  rfl

theorem page_type_field_lt (buf : BytePtr) : page_type_field buf < 2 ^ 16 :=
  mach_read_from_2_lt _

/-- Masking with `1U << FIL_PAGE_COMPRESS_FCRC32_MARKER` tests bit 15. -/
theorem and_marker_eq_zero_iff (t : Nat) :
    (t &&& (1 <<< FIL_PAGE_COMPRESS_FCRC32_MARKER)) = 0
      ↔ t.testBit FIL_PAGE_COMPRESS_FCRC32_MARKER = false := by
  rw [Nat.one_shiftLeft, Nat.and_two_pow]
  cases h : t.testBit FIL_PAGE_COMPRESS_FCRC32_MARKER <;>
    simp [FIL_PAGE_COMPRESS_FCRC32_MARKER]

/-- Clearing the marker bit of a 16-bit value with the 32-bit mask
`~(1U << FIL_PAGE_COMPRESS_FCRC32_MARKER)` leaves its low 15 bits. -/
theorem and_not_marker (t : Nat) (ht : t < 2 ^ 16) :
    t &&& ((UINT_RANGE - 1) ^^^ (1 <<< FIL_PAGE_COMPRESS_FCRC32_MARKER))
      = t % 2 ^ 15 := by
  apply Nat.eq_of_testBit_eq
  intro i
  rw [Nat.one_shiftLeft]
  simp only [UINT_RANGE, FIL_PAGE_COMPRESS_FCRC32_MARKER, Nat.testBit_and,
    Nat.testBit_xor, Nat.testBit_two_pow_sub_one, Nat.testBit_two_pow,
    Nat.testBit_mod_two_pow]
  by_cases h15 : i < 15
  · have h1 : i < 32 := by omega
    have h2 : ¬ (15 = i) := by omega
    simp [h15, h1, h2]
  · by_cases h : 15 = i
    · subst h
      simp
    · have h16 : 16 ≤ i := by omega
      have hlt : t < 2 ^ i :=
        Nat.lt_of_lt_of_le ht (Nat.pow_le_pow_right (by decide) h16)
      simp [Nat.testBit_lt_two_pow hlt, h15]

/-- The type field of `page_with_type hi lo`. -/
theorem page_type_field_page_with_type (hi lo : byte) :
    page_type_field (page_with_type hi lo) = hi.val * 256 + lo.val := by
  rw [page_type_field_eq]
  simp [page_with_type, FIL_PAGE_TYPE]

/-! ## Claims on the page header accessors -/

/-- C1: `buf_page_is_compressed(read_buf, fsp_flags)`, for every page buffer.
The type field is the 2-byte big-endian number at offset `FIL_PAGE_TYPE`. When
the flags denote full_crc32 the result is true if and only if bit
`FIL_PAGE_COMPRESS_FCRC32_MARKER` of the type field is set, and no other bit
of the type field matters: two pages that agree on that bit give the same
result. When the flags are not full_crc32 the result is true if and only if
the whole type field equals `FIL_PAGE_PAGE_COMPRESSED`. -/
theorem buf_page_is_compressed_spec (full_crc32 : Nat → Bool)
    (read_buf : BytePtr) (fsp_flags : Nat) :
    page_type_field read_buf
        = (read_buf FIL_PAGE_TYPE).val * 256 + (read_buf (FIL_PAGE_TYPE + 1)).val ∧
    (full_crc32 fsp_flags = true →
      (buf_page_is_compressed full_crc32 read_buf fsp_flags = true ↔
        (page_type_field read_buf).testBit FIL_PAGE_COMPRESS_FCRC32_MARKER = true)) ∧
    (full_crc32 fsp_flags = true →
      ∀ other : BytePtr,
        (page_type_field other).testBit FIL_PAGE_COMPRESS_FCRC32_MARKER
            = (page_type_field read_buf).testBit FIL_PAGE_COMPRESS_FCRC32_MARKER →
        buf_page_is_compressed full_crc32 other fsp_flags
          = buf_page_is_compressed full_crc32 read_buf fsp_flags) ∧
    (full_crc32 fsp_flags = false →
      (buf_page_is_compressed full_crc32 read_buf fsp_flags = true ↔
        page_type_field read_buf = FIL_PAGE_PAGE_COMPRESSED)) := by
  have key : ∀ b : BytePtr, full_crc32 fsp_flags = true →
      buf_page_is_compressed full_crc32 b fsp_flags
        = (page_type_field b).testBit FIL_PAGE_COMPRESS_FCRC32_MARKER := by
    intro b hf
    have hz := and_marker_eq_zero_iff (page_type_field b)
    simp only [buf_page_is_compressed, hf, if_true]
    change (page_type_field b &&& 1 <<< FIL_PAGE_COMPRESS_FCRC32_MARKER != 0) = _
    cases hb : (page_type_field b).testBit FIL_PAGE_COMPRESS_FCRC32_MARKER
    · rw [hz.mpr hb]
      rfl
    · have hne : ¬ (page_type_field b &&& 1 <<< FIL_PAGE_COMPRESS_FCRC32_MARKER) = 0 := by
        intro h0
        rw [hz.mp h0] at hb
        exact Bool.noConfusion hb
      simp [bne, hne]
  refine ⟨page_type_field_eq read_buf, ?_, ?_, ?_⟩
  · intro hf
    rw [key read_buf hf]
  · intro hf other hbit
    rw [key other hf, key read_buf hf, hbit]
  · intro hf
    simp only [buf_page_is_compressed, hf]
    change (page_type_field read_buf == FIL_PAGE_PAGE_COMPRESSED) = true ↔ _
    simp

/-- Witness for C1: in full_crc32 format a page whose type field is 0x8000 is
compressed. -/
theorem buf_page_is_compressed_spec_witness :
    buf_page_is_compressed (fun _ => true) (page_with_type 0x80 0) 0 = true :=
  ((buf_page_is_compressed_spec (fun _ => true) (page_with_type 0x80 0) 0).2.1
      rfl).mpr (by rw [page_type_field_page_with_type]; decide)

/-- What `buf_page_full_crc32_size` computes, in arithmetic terms, when
`srv_page_size` fits the `uint` it is converted to. -/
theorem buf_page_full_crc32_size_eq (srv_page_size : Nat) (buf : BytePtr)
    (comp cr : Option Bool) (hsize : srv_page_size < UINT_RANGE) :
    buf_page_full_crc32_size srv_page_size buf comp cr =
      if (page_type_field buf).testBit FIL_PAGE_COMPRESS_FCRC32_MARKER = false then
        { ret := srv_page_size, comp := comp, cr := cr }
      else if 256 * (page_type_field buf % 2 ^ 15) < srv_page_size then
        { ret := 256 * (page_type_field buf % 2 ^ 15), comp := store_true comp, cr := cr }
      else
        { ret := srv_page_size, comp := comp, cr := store_true cr } := by
  have ht := page_type_field_lt buf
  have ht32 : page_type_field buf % UINT_RANGE = page_type_field buf :=
    Nat.mod_eq_of_lt (Nat.lt_of_lt_of_le ht (by decide))
  have hs : srv_page_size % UINT_RANGE = srv_page_size := Nat.mod_eq_of_lt hsize
  have hn : page_type_field buf % 2 ^ 15 < 2 ^ 15 := Nat.mod_lt _ (by decide)
  have hshift : ((page_type_field buf % 2 ^ 15) <<< 8) % UINT_RANGE
      = 256 * (page_type_field buf % 2 ^ 15) := by
    rw [Nat.shiftLeft_eq]
    simp only [UINT_RANGE]
    omega
  have hpt : mach_read_from_2 (ptr_add buf FIL_PAGE_TYPE) = page_type_field buf := rfl
  unfold buf_page_full_crc32_size
  simp only [hpt, ht32, hs, and_not_marker _ ht, hshift]
  by_cases hb : (page_type_field buf).testBit FIL_PAGE_COMPRESS_FCRC32_MARKER = false
  · rw [if_pos ((and_marker_eq_zero_iff _).mpr hb), if_pos hb]
  · rw [if_neg (fun h0 => hb ((and_marker_eq_zero_iff _).mp h0)), if_neg hb]

/-- C2: `buf_page_full_crc32_size(buf, comp, cr)` on a page whose type field
has the compression marker bit set and whose remaining 15 bits `n` satisfy
`256 * n < srv_page_size` (the page size fitting the `uint` the function
converts it to): the function returns exactly `256 * n`, the location `comp`
points to holds true afterwards when `comp` is not null, and `*cr` is not
written. -/
theorem buf_page_full_crc32_size_compressed (srv_page_size : Nat)
    (buf : BytePtr) (comp cr : Option Bool)
    (hsize : srv_page_size < UINT_RANGE)
    (hmark : (page_type_field buf).testBit FIL_PAGE_COMPRESS_FCRC32_MARKER = true)
    (hlen : 256 * (page_type_field buf % 2 ^ 15) < srv_page_size) :
    (buf_page_full_crc32_size srv_page_size buf comp cr).ret
        = 256 * (page_type_field buf % 2 ^ 15) ∧
    (∀ v : Bool, comp = some v →
      (buf_page_full_crc32_size srv_page_size buf comp cr).comp = some true) ∧
    (comp = none →
      (buf_page_full_crc32_size srv_page_size buf comp cr).comp = none) ∧
    (buf_page_full_crc32_size srv_page_size buf comp cr).cr = cr := by
  rw [buf_page_full_crc32_size_eq _ _ _ _ hsize, if_neg (by simp [hmark]),
    if_pos hlen]
  refine ⟨rfl, ?_, ?_, rfl⟩
  · intro v hv
    subst hv
    rfl
  · intro hv
    subst hv
    rfl

/-- Witness for C2: a 16 KiB page size and the type field 0x8010, marker set
and length 16 * 256 = 4096 bytes. -/
theorem buf_page_full_crc32_size_compressed_witness :
    (buf_page_full_crc32_size 16384 (page_with_type 0x80 0x10) (some false)
        (some false)).ret = 256 * (page_type_field (page_with_type 0x80 0x10) % 2 ^ 15) ∧
    (∀ v : Bool, some false = some v →
      (buf_page_full_crc32_size 16384 (page_with_type 0x80 0x10) (some false)
        (some false)).comp = some true) ∧
    (some false = none →
      (buf_page_full_crc32_size 16384 (page_with_type 0x80 0x10) (some false)
        (some false)).comp = none) ∧
    (buf_page_full_crc32_size 16384 (page_with_type 0x80 0x10) (some false)
        (some false)).cr = some false :=
  buf_page_full_crc32_size_compressed 16384 (page_with_type 0x80 0x10)
    (some false) (some false) (by decide)
    (by rw [page_type_field_page_with_type]; decide)
    (by rw [page_type_field_page_with_type]; decide)

/-- C3: `buf_page_full_crc32_size(buf, comp, cr)` on a page whose type field
has the compression marker bit set but whose encoded length
`256 * (type & 0x7FFF)` is not smaller than `srv_page_size` (the page size
fitting the `uint` the function converts it to): possible corruption is
reported, the location `cr` points to holds true afterwards when `cr` is not
null, `*comp` is not written, and `srv_page_size` is returned. -/
theorem buf_page_full_crc32_size_corrupted (srv_page_size : Nat)
    (buf : BytePtr) (comp cr : Option Bool)
    (hsize : srv_page_size < UINT_RANGE)
    (hmark : (page_type_field buf).testBit FIL_PAGE_COMPRESS_FCRC32_MARKER = true)
    (hlen : ¬ 256 * (page_type_field buf &&& 0x7FFF) < srv_page_size) :
    (buf_page_full_crc32_size srv_page_size buf comp cr).ret = srv_page_size ∧
    (buf_page_full_crc32_size srv_page_size buf comp cr).comp = comp ∧
    (∀ v : Bool, cr = some v →
      (buf_page_full_crc32_size srv_page_size buf comp cr).cr = some true) ∧
    (cr = none →
      (buf_page_full_crc32_size srv_page_size buf comp cr).cr = none) := by
  have hmask : page_type_field buf &&& 0x7FFF = page_type_field buf % 2 ^ 15 :=
    Nat.and_pow_two_sub_one_eq_mod _ 15
  rw [hmask] at hlen
  rw [buf_page_full_crc32_size_eq _ _ _ _ hsize, if_neg (by simp [hmark]),
    if_neg hlen]
  refine ⟨rfl, rfl, ?_, ?_⟩
  · intro v hv
    subst hv
    rfl
  · intro hv
    subst hv
    rfl

/-- Witness for C3: a 16 KiB page size and the type field 0x8040, marker set
and length 64 * 256 = 16384 bytes, not smaller than the page. -/
theorem buf_page_full_crc32_size_corrupted_witness :
    (buf_page_full_crc32_size 16384 (page_with_type 0x80 0x40) (some false)
        (some false)).ret = 16384 ∧
    (buf_page_full_crc32_size 16384 (page_with_type 0x80 0x40) (some false)
        (some false)).comp = some false ∧
    (∀ v : Bool, some false = some v →
      (buf_page_full_crc32_size 16384 (page_with_type 0x80 0x40) (some false)
        (some false)).cr = some true) ∧
    (some false = none →
      (buf_page_full_crc32_size 16384 (page_with_type 0x80 0x40) (some false)
        (some false)).cr = none) :=
  buf_page_full_crc32_size_corrupted 16384 (page_with_type 0x80 0x40)
    (some false) (some false) (by decide)
    (by rw [page_type_field_page_with_type]; decide)
    (by rw [page_type_field_page_with_type]; decide)

/-- C4: `buf_page_full_crc32_size(buf, comp, cr)` on a page whose type field
has the compression marker bit clear (the page size fitting the `uint` the
function converts it to): the function returns `srv_page_size` and both
`*comp` and `*cr` are exactly as the caller initialised them, neither being
written. -/
theorem buf_page_full_crc32_size_uncompressed (srv_page_size : Nat)
    (buf : BytePtr) (comp cr : Option Bool)
    (hsize : srv_page_size < UINT_RANGE)
    (hmark : (page_type_field buf).testBit FIL_PAGE_COMPRESS_FCRC32_MARKER = false) :
    buf_page_full_crc32_size srv_page_size buf comp cr
      = { ret := srv_page_size, comp := comp, cr := cr } := by
  rw [buf_page_full_crc32_size_eq _ _ _ _ hsize, if_pos hmark]

/-- Witness for C4: a 16 KiB page size and the type field 0x45BF
(`FIL_PAGE_INDEX`), marker clear. -/
theorem buf_page_full_crc32_size_uncompressed_witness :
    buf_page_full_crc32_size 16384 (page_with_type 0x45 0xBF) (some false) (some true)
      = { ret := 16384, comp := some false, cr := some true } :=
  buf_page_full_crc32_size_uncompressed 16384 (page_with_type 0x45 0xBF)
    (some false) (some true) (by decide)
    (by rw [page_type_field_page_with_type]; decide)

/-- C5: `buf_page_get_key_version(read_buf, fsp_flags)`, for every page
buffer. In full_crc32 format the result is the 32-bit big-endian value of the
bytes 0..3 of the page, in every other format the 32-bit big-endian value of
the four bytes from offset 26 on; it fits 32 bits; and a page that agrees with
`read_buf` on the selected four bytes gives the same result, whatever its
other bytes are. -/
theorem buf_page_get_key_version_spec (full_crc32 : Nat → Bool)
    (read_buf : BytePtr) (fsp_flags : Nat) :
    (full_crc32 fsp_flags = true →
      buf_page_get_key_version full_crc32 read_buf fsp_flags
        = (read_buf 0).val * 2 ^ 24 + (read_buf 1).val * 2 ^ 16
          + (read_buf 2).val * 2 ^ 8 + (read_buf 3).val) ∧
    (full_crc32 fsp_flags = false →
      buf_page_get_key_version full_crc32 read_buf fsp_flags
        = (read_buf 26).val * 2 ^ 24 + (read_buf 27).val * 2 ^ 16
          + (read_buf 28).val * 2 ^ 8 + (read_buf 29).val) ∧
    buf_page_get_key_version full_crc32 read_buf fsp_flags < 2 ^ 32 ∧
    (full_crc32 fsp_flags = true →
      ∀ other : BytePtr, (∀ i, i < 4 → other i = read_buf i) →
        buf_page_get_key_version full_crc32 other fsp_flags
          = buf_page_get_key_version full_crc32 read_buf fsp_flags) ∧
    (full_crc32 fsp_flags = false →
      ∀ other : BytePtr, (∀ i, i < 4 → other (26 + i) = read_buf (26 + i)) →
        buf_page_get_key_version full_crc32 other fsp_flags
          = buf_page_get_key_version full_crc32 read_buf fsp_flags) := by
  have hfull : ∀ b : BytePtr, full_crc32 fsp_flags = true →
      buf_page_get_key_version full_crc32 b fsp_flags
        = (b 0).val * 2 ^ 24 + (b 1).val * 2 ^ 16 + (b 2).val * 2 ^ 8 + (b 3).val := by
    intro b hf
    simp only [buf_page_get_key_version, hf, if_true]
    rw [mach_read_from_4_eq]
    rfl
  have hother : ∀ b : BytePtr, full_crc32 fsp_flags = false →
      buf_page_get_key_version full_crc32 b fsp_flags
        = (b 26).val * 2 ^ 24 + (b 27).val * 2 ^ 16 + (b 28).val * 2 ^ 8 + (b 29).val := by
    intro b hf
    simp only [buf_page_get_key_version, hf]
    rw [if_neg (by simp), mach_read_from_4_eq]
    rfl
  refine ⟨hfull read_buf, hother read_buf, ?_, ?_, ?_⟩
  · cases hf : full_crc32 fsp_flags
    · rw [hother read_buf hf]
      have h0 := (read_buf 26).isLt
      have h1 := (read_buf 27).isLt
      have h2 := (read_buf 28).isLt
      have h3 := (read_buf 29).isLt
      omega
    · rw [hfull read_buf hf]
      have h0 := (read_buf 0).isLt
      have h1 := (read_buf 1).isLt
      have h2 := (read_buf 2).isLt
      have h3 := (read_buf 3).isLt
      omega
  · intro hf other hagree
    rw [hfull other hf, hfull read_buf hf, hagree 0 (by decide),
      hagree 1 (by decide), hagree 2 (by decide), hagree 3 (by decide)]
  · intro hf other hagree
    rw [hother other hf, hother read_buf hf, hagree 0 (by decide),
      hagree 1 (by decide), hagree 2 (by decide), hagree 3 (by decide)]

/-- Witness for C5: outside full_crc32 format, the key version of a page with
the bytes 0, 0, 1, 2 at offsets 26..29 is 258. -/
theorem buf_page_get_key_version_spec_witness :
    buf_page_get_key_version (fun _ => false)
      (fun i => if i = 28 then 1 else if i = 29 then 2 else 0) 0 = 258 :=
  ((buf_page_get_key_version_spec (fun _ => false)
      (fun i => if i = 28 then 1 else if i = 29 then 2 else 0) 0).2.1 rfl).trans
    (by decide)

/-! ## Claims on the pin counter -/

theorem count_fix_cons (c : PinCall) (cs : List PinCall) :
    count_fix (c :: cs) = count_fix cs + (if c = PinCall.fix then 1 else 0) := by
  cases c <;> simp [count_fix, List.count_cons]

theorem count_unfix_cons (c : PinCall) (cs : List PinCall) :
    count_unfix (c :: cs) = count_unfix cs + (if c = PinCall.unfix then 1 else 0) := by
  cases c <;> simp [count_unfix, List.count_cons]

/-- One `fix()` on a count that can still grow: recorded as a well-behaved
call, the count raised by one. -/
theorem pin_step_fix (p : buf_page_t) (h : p.buf_fix_count + 1 < UINT_RANGE) :
    (pin_step PinCall.fix p).2.ok ∧
    (pin_step PinCall.fix p).2.call = PinCall.fix ∧
    (pin_step PinCall.fix p).1.buf_fix_count = p.buf_fix_count + 1 := by
  have hcnt : (p.buf_fix_count + 1) % UINT_RANGE = p.buf_fix_count + 1 :=
    Nat.mod_eq_of_lt h
  exact ⟨⟨rfl, hcnt, rfl⟩, rfl, hcnt⟩

/-- One `unfix()` on a nonzero count: recorded as a well-behaved call, the
count lowered by one. -/
theorem pin_step_unfix (p : buf_page_t) (h0 : p.buf_fix_count < UINT_RANGE)
    (h1 : p.buf_fix_count ≠ 0) :
    (pin_step PinCall.unfix p).2.ok ∧
    (pin_step PinCall.unfix p).2.call = PinCall.unfix ∧
    (pin_step PinCall.unfix p).1.buf_fix_count + 1 = p.buf_fix_count := by
  have hcnt : (p.buf_fix_count + UINT_RANGE - 1) % UINT_RANGE + 1
      = p.buf_fix_count := by
    have hsplit : p.buf_fix_count + UINT_RANGE - 1
        = (p.buf_fix_count - 1) + 1 * UINT_RANGE := by omega
    rw [hsplit, Nat.add_mul_mod_self_right, Nat.mod_eq_of_lt (by omega)]
    omega
  have hassert : (p.buf_fix_count != 0) = true := by simp [h1]
  exact ⟨⟨hassert, h1, hcnt, rfl⟩, rfl, hcnt⟩

/-- A `fix()` followed by an `unfix()` restores the descriptor; the `unfix()`
passes its assertion and returns the original count. -/
theorem fix_then_unfix (q : buf_page_t) (h : q.buf_fix_count + 1 < UINT_RANGE) :
    q.fix.unfix.page = q ∧ q.fix.unfix.ret = q.buf_fix_count ∧
    q.fix.unfix.assert_ok = true := by
  obtain ⟨c, iof, st, zip, om⟩ := q
  have hc : c + 1 < UINT_RANGE := h
  have e1 : (c + 1) % UINT_RANGE = c + 1 := Nat.mod_eq_of_lt hc
  have e2 : (c + 1 + UINT_RANGE - 1) % UINT_RANGE = c := by
    have hsplit : c + 1 + UINT_RANGE - 1 = c + 1 * UINT_RANGE := by omega
    rw [hsplit, Nat.add_mul_mod_self_right]
    exact Nat.mod_eq_of_lt (by omega)
  simp only [buf_page_t.fix, buf_page_t.unfix, e1, e2]
  simp

theorem run_calls_cons (c : PinCall) (cs : List PinCall) (p : buf_page_t) :
    run_calls (c :: cs) p
      = ((run_calls cs (pin_step c p).1).1,
         (pin_step c p).2 :: (run_calls cs (pin_step c p).1).2) := rfl

/-- The pin counter after a call sequence started at any count: as long as no
prefix unpins more than is pinned and the count stays below `2 ^ 32`, every
call behaves and the counter is the balance of the calls. -/
theorem run_calls_balance (cs : List PinCall) :
    ∀ p : buf_page_t,
      (∀ k, count_unfix (cs.take k) ≤ p.buf_fix_count + count_fix (cs.take k)) →
      (∀ k, p.buf_fix_count + count_fix (cs.take k) - count_unfix (cs.take k)
          < UINT_RANGE) →
      (∀ s ∈ (run_calls cs p).2, s.ok) ∧
      (run_calls cs p).2.map PinStep.call = cs ∧
      (run_calls cs p).1.buf_fix_count + count_unfix cs
        = p.buf_fix_count + count_fix cs := by
  induction cs with
  | nil =>
    intro p _ _
    simp [run_calls, count_fix, count_unfix]
  | cons c cs ih =>
    intro p hbal hbound
    have h0 : p.buf_fix_count < UINT_RANGE := by
      simpa [count_fix, count_unfix] using hbound 0
    have hbal1 := hbal 1
    have hbound1 := hbound 1
    have hbalk : ∀ k, count_unfix (cs.take k) + (if c = PinCall.unfix then 1 else 0)
        ≤ p.buf_fix_count + (count_fix (cs.take k) + (if c = PinCall.fix then 1 else 0)) := by
      intro k
      have := hbal (k + 1)
      simpa only [List.take_succ_cons, count_fix_cons, count_unfix_cons] using this
    have hboundk : ∀ k, p.buf_fix_count
        + (count_fix (cs.take k) + (if c = PinCall.fix then 1 else 0))
        - (count_unfix (cs.take k) + (if c = PinCall.unfix then 1 else 0))
        < UINT_RANGE := by
      intro k
      have := hbound (k + 1)
      simpa only [List.take_succ_cons, count_fix_cons, count_unfix_cons] using this
    have hstep : (pin_step c p).2.ok ∧ (pin_step c p).2.call = c ∧
        (pin_step c p).1.buf_fix_count + (if c = PinCall.unfix then 1 else 0)
          = p.buf_fix_count + (if c = PinCall.fix then 1 else 0) := by
      have hb0 := hbalk 0
      have hd0 := hboundk 0
      simp only [List.take_zero, count_fix, count_unfix, List.count_nil] at hb0 hd0
      cases c with
      | fix =>
        simp only [if_true, if_neg (show ¬ PinCall.fix = PinCall.unfix by decide)]
          at hb0 hd0 ⊢
        obtain ⟨a, b, e⟩ := pin_step_fix p (by omega)
        exact ⟨a, b, by omega⟩
      | unfix =>
        simp only [if_true, if_neg (show ¬ PinCall.unfix = PinCall.fix by decide)]
          at hb0 hd0 ⊢
        obtain ⟨a, b, e⟩ := pin_step_unfix p h0 (by omega)
        exact ⟨a, b, by omega⟩
    rw [run_calls_cons]
    generalize pin_step c p = r at hstep ⊢
    obtain ⟨hok, hcall, hcnt⟩ := hstep
    have hb2 : ∀ k, count_unfix (cs.take k)
        ≤ r.1.buf_fix_count + count_fix (cs.take k) := by
      intro k
      have := hbalk k
      omega
    have hd2 : ∀ k, r.1.buf_fix_count + count_fix (cs.take k)
        - count_unfix (cs.take k) < UINT_RANGE := by
      intro k
      have := hboundk k
      have := hbalk k
      omega
    obtain ⟨ih1, ih2, ih3⟩ := ih r.1 hb2 hd2
    refine ⟨?_, ?_, ?_⟩
    · intro s hs
      rcases List.mem_cons.mp hs with rfl | hs
      · exact hok
      · exact ih1 s hs
    · simp only [List.map_cons, ih2, hcall]
    · simp only [count_fix_cons, count_unfix_cons]
      omega

/-- C6: `buf_page_t::fix` / `unfix`. For every sequence of `fix()` and
`unfix()` calls on a descriptor starting from `buf_fix_count = 0` in which no
prefix contains more `unfix` than `fix` calls and fewer than `2 ^ 32` pins are
outstanding after every prefix: every call is executed, the assertion
`count != 0` of every `unfix()` holds, every `unfix()` lowers the count by one
and returns the count after its decrement, every `fix()` raises the count by
exactly one, and the final `buf_fix_count` is the number of `fix` calls minus
the number of `unfix` calls, the latter not exceeding the former. Moreover a
`fix()` directly followed by an `unfix()` restores the descriptor, and the
members of `buf_block_t` of the same names act on the descriptor of the block
in the same way. -/
theorem fix_unfix_balance (cs : List PinCall) (p : buf_page_t)
    (hstart : p.buf_fix_count = 0)
    (hbal : ∀ k, count_unfix (cs.take k) ≤ count_fix (cs.take k))
    (hbound : ∀ k, count_fix (cs.take k) - count_unfix (cs.take k) < 2 ^ 32) :
    (∀ s ∈ (run_calls cs p).2, s.ok) ∧
    (run_calls cs p).2.map PinStep.call = cs ∧
    count_unfix cs ≤ count_fix cs ∧
    (run_calls cs p).1.buf_fix_count = count_fix cs - count_unfix cs ∧
    (∀ q : buf_page_t, q.buf_fix_count + 1 < 2 ^ 32 →
      q.fix.unfix.page = q ∧ q.fix.unfix.ret = q.buf_fix_count ∧
      q.fix.unfix.assert_ok = true) ∧
    (∀ b : buf_block_t, b.fix.page = b.page.fix ∧ b.unfix = b.page.unfix) := by
  have hb : ∀ k, count_unfix (cs.take k) ≤ p.buf_fix_count + count_fix (cs.take k) := by
    intro k
    rw [hstart, Nat.zero_add]
    exact hbal k
  have hd : ∀ k, p.buf_fix_count + count_fix (cs.take k) - count_unfix (cs.take k)
      < UINT_RANGE := by
    intro k
    rw [hstart, Nat.zero_add]
    exact hbound k
  obtain ⟨h1, h2, h3⟩ := run_calls_balance cs p hb hd
  have hle : count_unfix cs ≤ count_fix cs := by
    have := hbal cs.length
    rwa [List.take_length] at this
  refine ⟨h1, h2, hle, ?_, fun q hq => fix_then_unfix q hq, fun b => ⟨rfl, rfl⟩⟩
  rw [hstart] at h3
  omega

/-- Witness for C6: pin twice and unpin once from a count of zero; one pin is
left. -/
theorem fix_unfix_balance_witness :
    (∀ s ∈ (run_calls [PinCall.fix, PinCall.fix, PinCall.unfix]
        (mk_page 0 BUF_BLOCK_FILE_PAGE)).2, s.ok) ∧
    (run_calls [PinCall.fix, PinCall.fix, PinCall.unfix]
        (mk_page 0 BUF_BLOCK_FILE_PAGE)).2.map PinStep.call
      = [PinCall.fix, PinCall.fix, PinCall.unfix] ∧
    count_unfix [PinCall.fix, PinCall.fix, PinCall.unfix]
      ≤ count_fix [PinCall.fix, PinCall.fix, PinCall.unfix] ∧
    (run_calls [PinCall.fix, PinCall.fix, PinCall.unfix]
        (mk_page 0 BUF_BLOCK_FILE_PAGE)).1.buf_fix_count
      = count_fix [PinCall.fix, PinCall.fix, PinCall.unfix]
        - count_unfix [PinCall.fix, PinCall.fix, PinCall.unfix] ∧
    (∀ q : buf_page_t, q.buf_fix_count + 1 < 2 ^ 32 →
      q.fix.unfix.page = q ∧ q.fix.unfix.ret = q.buf_fix_count ∧
      q.fix.unfix.assert_ok = true) ∧
    (∀ b : buf_block_t, b.fix.page = b.page.fix ∧ b.unfix = b.page.unfix) :=
  fix_unfix_balance [PinCall.fix, PinCall.fix, PinCall.unfix]
    (mk_page 0 BUF_BLOCK_FILE_PAGE) rfl
    (fun k => by
      rcases k with _ | _ | _ | k <;> simp [count_fix, count_unfix, List.take])
    (fun k => by
      rcases k with _ | _ | _ | k <;> simp [count_fix, count_unfix, List.take])

/-! ## Claims on the control-block states -/

/-- C7: control-block state machine. Setting the state of a descriptor
succeeds exactly for the transitions NOT_USED => READY_FOR_USE,
READY_FOR_USE => MEMORY, READY_FOR_USE => FILE_PAGE, MEMORY => NOT_USED and
FILE_PAGE => NOT_USED, the last one if and only if `buf_fix_count == 0`,
`oldest_modification == 0` and `io_fix == 0`; a successful call changes the
state and nothing else; a FILE_PAGE block with `buf_fix_count > 0` is never
moved to NOT_USED; and `buf_block_set_state` permits the same transitions on
the descriptor of a block. -/
theorem buf_page_set_state_spec (bpage : buf_page_t) (state : buf_page_state) :
    ((buf_page_set_state bpage state).isSome = true ↔ transition_listed bpage state) ∧
    (∀ q, buf_page_set_state bpage state = some q →
      q = { bpage with state := state }) ∧
    (bpage.state = BUF_BLOCK_FILE_PAGE →
      ((buf_page_set_state bpage BUF_BLOCK_NOT_USED).isSome = true ↔
        bpage.buf_fix_count = 0 ∧ bpage.oldest_modification = 0 ∧ bpage.io_fix = 0)) ∧
    (bpage.state = BUF_BLOCK_FILE_PAGE → 0 < bpage.buf_fix_count →
      buf_page_set_state bpage BUF_BLOCK_NOT_USED = none) ∧
    (∀ block : buf_block_t, block.page = bpage →
      ((buf_block_set_state block state).isSome = true ↔
        transition_listed bpage state)) := by
  have hiff : ∀ st : buf_page_state,
      (buf_page_set_state bpage st).isSome = true ↔ transition_listed bpage st := by
    intro st
    obtain ⟨c, io, old, zip, om⟩ := bpage
    cases old <;> cases st <;>
      simp [buf_page_set_state, transition_listed, BUF_IO_NONE, and_assoc]
  refine ⟨hiff state, ?_, ?_, ?_, ?_⟩
  · intro q hq
    unfold buf_page_set_state at hq
    simp only [] at hq
    split at hq
    · exact (Option.some.inj hq).symm
    · exact Option.noConfusion hq
  · intro hfile
    rw [hiff BUF_BLOCK_NOT_USED]
    simp [transition_listed, hfile]
  · intro hfile hpin
    have hnot : ¬ (buf_page_set_state bpage BUF_BLOCK_NOT_USED).isSome = true := by
      rw [hiff BUF_BLOCK_NOT_USED]
      simp only [transition_listed, hfile]
      intro h
      rcases h with h | h | h | h | h
      · exact buf_page_state.noConfusion h.1
      · exact buf_page_state.noConfusion h.1
      · exact buf_page_state.noConfusion h.1
      · exact buf_page_state.noConfusion h.1
      · omega
    cases hres : buf_page_set_state bpage BUF_BLOCK_NOT_USED with
    | none => rfl
    | some q => exact absurd (by rw [hres]; rfl) hnot
  · intro block hblock
    rw [← hiff state, ← hblock]
    simp [buf_block_set_state]

/-- Witness for C7: a pinned FILE_PAGE block is not moved to NOT_USED. -/
theorem buf_page_set_state_spec_witness :
    buf_page_set_state (mk_page 1 BUF_BLOCK_FILE_PAGE) BUF_BLOCK_NOT_USED = none :=
  (buf_page_set_state_spec (mk_page 1 BUF_BLOCK_FILE_PAGE)
    BUF_BLOCK_NOT_USED).2.2.2.1 rfl (by decide)

/-- C8: `buf_block_state_valid(block)` is true if and only if the state of the
block is one of NOT_USED, READY_FOR_USE, FILE_PAGE, MEMORY and REMOVE_HASH; it
is false for the watch sentinel state POOL_WATCH and for the compressed-only
states ZIP_PAGE and ZIP_DIRTY. -/
theorem buf_block_state_valid_spec (block : buf_block_t) :
    (buf_block_state_valid block = true ↔
      block.page.state = BUF_BLOCK_NOT_USED ∨
      block.page.state = BUF_BLOCK_READY_FOR_USE ∨
      block.page.state = BUF_BLOCK_FILE_PAGE ∨
      block.page.state = BUF_BLOCK_MEMORY ∨
      block.page.state = BUF_BLOCK_REMOVE_HASH) ∧
    (buf_block_state_valid block = false ↔
      block.page.state = BUF_BLOCK_POOL_WATCH ∨
      block.page.state = BUF_BLOCK_ZIP_PAGE ∨
      block.page.state = BUF_BLOCK_ZIP_DIRTY) := by
  obtain ⟨⟨c, io, st, zip, om⟩⟩ := block
  cases st <;>
    simp [buf_block_state_valid, buf_block_get_state, buf_page_state.toNat,
      buf_page_state.enumerators]

/-- C9: `enum buf_page_state`. The eight states POOL_WATCH, ZIP_PAGE,
ZIP_DIRTY, NOT_USED, READY_FOR_USE, FILE_PAGE, MEMORY, REMOVE_HASH have, in
this order, the values 0, 1, ..., 7; the values are pairwise distinct; every
state has a value below `2 ^ BUF_PAGE_STATE_BITS`, that is, fits in 3 bits;
and every 3-bit value is the value of a state, the one `ofNat?` finds. -/
theorem buf_page_state_values :
    [BUF_BLOCK_POOL_WATCH, BUF_BLOCK_ZIP_PAGE, BUF_BLOCK_ZIP_DIRTY,
      BUF_BLOCK_NOT_USED, BUF_BLOCK_READY_FOR_USE, BUF_BLOCK_FILE_PAGE,
      BUF_BLOCK_MEMORY, BUF_BLOCK_REMOVE_HASH].map buf_page_state.toNat
        = [0, 1, 2, 3, 4, 5, 6, 7] ∧
    Function.Injective buf_page_state.toNat ∧
    (∀ s : buf_page_state, s.toNat < 2 ^ BUF_PAGE_STATE_BITS) ∧
    (∀ s : buf_page_state, buf_page_state.ofNat? s.toNat = some s) ∧
    (∀ n : Fin (2 ^ BUF_PAGE_STATE_BITS),
      ∃ s : buf_page_state, s.toNat = n.val ∧ buf_page_state.ofNat? n.val = some s) := by
  refine ⟨by decide, ?_, ?_, ?_, ?_⟩
  · intro s t h
    cases s <;> cases t <;> first | rfl | exact absurd h (by decide)
  · intro s
    cases s <;> decide
  · intro s
    cases s <;> decide
  · intro n
    have hn : n.val < 8 := n.isLt
    obtain ⟨n, hlt⟩ := n
    simp only [] at hn ⊢
    interval_cases n
    · exact ⟨BUF_BLOCK_POOL_WATCH, by decide, by decide⟩
    · exact ⟨BUF_BLOCK_ZIP_PAGE, by decide, by decide⟩
    · exact ⟨BUF_BLOCK_ZIP_DIRTY, by decide, by decide⟩
    · exact ⟨BUF_BLOCK_NOT_USED, by decide, by decide⟩
    · exact ⟨BUF_BLOCK_READY_FOR_USE, by decide, by decide⟩
    · exact ⟨BUF_BLOCK_FILE_PAGE, by decide, by decide⟩
    · exact ⟨BUF_BLOCK_MEMORY, by decide, by decide⟩
    · exact ⟨BUF_BLOCK_REMOVE_HASH, by decide, by decide⟩

/-! ## Claims on the compressed-page size classes -/

/-- The shifted size of a size class that fits the bit-field `ssize`. -/
theorem zip_shift_eq (ssize : Nat) (hs : ssize < 2 ^ PAGE_ZIP_SSIZE_BITS) :
    ((UNIV_ZIP_SIZE_MIN >>> 1) <<< ssize) % UINT_RANGE
      = (UNIV_ZIP_SIZE_MIN / 2) * 2 ^ ssize := by
  have h8 : ssize < 8 := hs
  interval_cases ssize <;> decide

/-- C10: `buf_page_t::zip_size` / `physical_size`, for every descriptor (the
size class `zip.ssize` being a bit-field of `PAGE_ZIP_SSIZE_BITS` bits).
`zip_size()` returns 0 if and only if `zip.ssize == 0`; for `ssize >= 1` it
returns `(UNIV_ZIP_SIZE_MIN / 2) * 2 ^ ssize`, which is exactly
`UNIV_ZIP_SIZE_MIN` for size class 1 and doubles with each further size
class; `physical_size()` equals `zip_size()` when that is nonzero and
`srv_page_size` otherwise; and the members of `buf_block_t` of the same names
return the same values. -/
theorem zip_size_spec (srv_page_size : Nat) (p : buf_page_t)
    (hs : p.zip.ssize < 2 ^ PAGE_ZIP_SSIZE_BITS) :
    (p.zip_size = 0 ↔ p.zip.ssize = 0) ∧
    (1 ≤ p.zip.ssize → p.zip_size = (UNIV_ZIP_SIZE_MIN / 2) * 2 ^ p.zip.ssize) ∧
    (p.zip.ssize = 1 → p.zip_size = UNIV_ZIP_SIZE_MIN) ∧
    (∀ q : buf_page_t, 1 ≤ p.zip.ssize → q.zip.ssize = p.zip.ssize + 1 →
      q.zip.ssize < 2 ^ PAGE_ZIP_SSIZE_BITS → q.zip_size = 2 * p.zip_size) ∧
    (p.zip_size ≠ 0 → p.physical_size srv_page_size = p.zip_size) ∧
    (p.zip_size = 0 → p.physical_size srv_page_size = srv_page_size) ∧
    (∀ b : buf_block_t, b.page = p →
      b.zip_size = p.zip_size ∧
      b.physical_size srv_page_size = p.physical_size srv_page_size) := by
  have hpos : ∀ r : buf_page_t, r.zip.ssize < 2 ^ PAGE_ZIP_SSIZE_BITS →
      1 ≤ r.zip.ssize → r.zip_size = (UNIV_ZIP_SIZE_MIN / 2) * 2 ^ r.zip.ssize := by
    intro r hr h1
    have hne : (r.zip.ssize != 0) = true := by
      simp only [bne_iff_ne, ne_eq]
      omega
    unfold buf_page_t.zip_size
    rw [if_pos hne, zip_shift_eq _ hr]
  have hzero : p.zip.ssize = 0 → p.zip_size = 0 := by
    intro h0
    unfold buf_page_t.zip_size
    rw [h0]
    rfl
  have hmin : 0 < UNIV_ZIP_SIZE_MIN / 2 := by decide
  have hiff : p.zip_size = 0 ↔ p.zip.ssize = 0 := by
    constructor
    · intro hz
      by_contra hne
      have h1 : 1 ≤ p.zip.ssize := Nat.one_le_iff_ne_zero.mpr hne
      rw [hpos p hs h1] at hz
      have h2 : 0 < 2 ^ p.zip.ssize := Nat.two_pow_pos _
      have := Nat.mul_pos hmin h2
      omega
    · exact hzero
  refine ⟨hiff, hpos p hs, ?_, ?_, ?_, ?_, ?_⟩
  · intro h1
    rw [hpos p hs (by omega), h1]
    decide
  · intro q h1 hq hqs
    rw [hpos q hqs (by omega), hpos p hs h1, hq, Nat.pow_succ]
    ring
  · intro hnz
    have hne : (p.zip.ssize != 0) = true := by
      simp only [bne_iff_ne, ne_eq]
      exact fun h0 => hnz (hzero h0)
    unfold buf_page_t.physical_size buf_page_t.zip_size
    rw [if_pos hne, if_pos hne]
  · intro hz
    have h0 := hiff.mp hz
    unfold buf_page_t.physical_size
    rw [h0]
    rfl
  · intro b hb
    subst hb
    exact ⟨rfl, rfl⟩

/-- Witness for C10: a descriptor of size class 3, a 4 KiB compressed page. -/
theorem zip_size_spec_witness :
    ({ mk_page 0 BUF_BLOCK_ZIP_PAGE with zip := { ssize := 3 } } : buf_page_t).zip_size
      = 4096 :=
  ((zip_size_spec 16384
      { mk_page 0 BUF_BLOCK_ZIP_PAGE with zip := { ssize := 3 } }
      (by decide)).2.1 (by decide)).trans (by decide)

end Buf0buf

namespace Buf0buf

/-! ## Claim on the LRU aging hint -/

/-- C11: `buf_page_make_young_if_needed(buf_pool, bpage)`, for every pool and
page and every implementation of the two functions it calls. If
`buf_page_peek_if_too_old(buf_pool, bpage)` returns true, `buf_page_make_young`
is invoked exactly once, on `bpage`, in the state the peek left; if it returns
false, `buf_page_make_young` is not invoked at all and the state is the one the
peek left, the page keeping its LRU position. Recording the invocations does
not change the state computed. -/
theorem buf_page_make_young_if_needed_spec {σ Pool Page : Type}
    (peek : Pool → Page → σ → Bool × σ) (make_young : Page → σ → σ)
    (buf_pool : Pool) (bpage : Page) (r : Recorded σ Page) :
    ((peek buf_pool bpage r.state).1 = true →
      (buf_page_make_young_if_needed (unrecorded peek) (recording make_young)
          buf_pool bpage r).made_young = r.made_young ++ [bpage] ∧
      (buf_page_make_young_if_needed (unrecorded peek) (recording make_young)
          buf_pool bpage r).state
        = make_young bpage (peek buf_pool bpage r.state).2) ∧
    ((peek buf_pool bpage r.state).1 = false →
      (buf_page_make_young_if_needed (unrecorded peek) (recording make_young)
          buf_pool bpage r).made_young = r.made_young ∧
      (buf_page_make_young_if_needed (unrecorded peek) (recording make_young)
          buf_pool bpage r).state = (peek buf_pool bpage r.state).2) ∧
    (buf_page_make_young_if_needed (unrecorded peek) (recording make_young)
        buf_pool bpage r).state
      = buf_page_make_young_if_needed peek make_young buf_pool bpage r.state := by
  refine ⟨?_, ?_, ?_⟩
  · intro h
    simp [buf_page_make_young_if_needed, unrecorded, recording, h]
  · intro h
    simp [buf_page_make_young_if_needed, unrecorded, h]
  · cases h : (peek buf_pool bpage r.state).1 <;>
      simp [buf_page_make_young_if_needed, unrecorded, recording, h]

/-- Witness for C11: the state is the LRU position of page 7; a peek that
finds positions above 3 too old, and a `make_young` that moves the page to
position 0. At position 5 the page is made young once. -/
theorem buf_page_make_young_if_needed_spec_witness :
    (buf_page_make_young_if_needed
        (unrecorded (fun (_ : Unit) (_ : Nat) (s : Nat) => (decide (3 < s), s)))
        (recording (fun (_ : Nat) (_ : Nat) => 0)) () 7
        { state := 5, made_young := [] }).made_young = [] ++ [7] ∧
    (buf_page_make_young_if_needed
        (unrecorded (fun (_ : Unit) (_ : Nat) (s : Nat) => (decide (3 < s), s)))
        (recording (fun (_ : Nat) (_ : Nat) => 0)) () 7
        { state := 5, made_young := [] }).state = 0 :=
  (buf_page_make_young_if_needed_spec
    (fun (_ : Unit) (_ : Nat) (s : Nat) => (decide (3 < s), s))
    (fun (_ : Nat) (_ : Nat) => 0) () 7 { state := 5, made_young := [] }).1
    (by decide)

end Buf0buf

namespace SqlTypeInet

/-! ## Helper lemmas on `memcmp` -/

/-- Buffers that agree on their first `n` bytes compare equal. -/
theorem memcmp_eq_zero (n : Nat) :
    ∀ s1 s2 : CharPtr, (∀ i, i < n → s1 i = s2 i) → memcmp s1 s2 n = 0 := by
  induction n with
  | zero =>
    intro s1 s2 _
    rfl
  | succ n ih =>
    intro s1 s2 h
    have h0 : s1 0 = s2 0 := h 0 (Nat.succ_pos n)
    have hrest : ∀ i, i < n → (fun i => s1 (i + 1)) i = (fun i => s2 (i + 1)) i :=
      fun i hi => h (i + 1) (Nat.succ_lt_succ hi)
    show (if s1 0 = s2 0 then memcmp (fun i => s1 (i + 1)) (fun i => s2 (i + 1)) n
      else ((s1 0).val : Int) - ((s2 0).val : Int)) = 0
    rw [if_pos h0]
    exact ih _ _ hrest

/-! ## Claims on INET4 / INET6 values -/

/-- C12: construction from a binary string. `binary_to_ipv6(str, length)`
returns true, and the `Inet6_null` built from `(str, length)` is NULL, if and
only if `length != IN6_ADDR_SIZE` (16); `binary_to_ipv4` returns true, and the
`Inet4_null` is NULL, if and only if `length != IN_ADDR_SIZE` (4); on rejection
the object, its address buffer included, is as it was; on acceptance the
buffer holds the bytes of `str`. -/
theorem binary_to_ip_spec (v6 : Inet6) (v4 : Inet4) (str : CharPtr) (length : Nat) :
    ((v6.binary_to_ipv6 str length).1 = true ↔ length ≠ IN6_ADDR_SIZE) ∧
    ((v4.binary_to_ipv4 str length).1 = true ↔ length ≠ IN_ADDR_SIZE) ∧
    ((Inet6_null.of_binary v6 str length).is_null = true ↔ length ≠ IN6_ADDR_SIZE) ∧
    ((Inet4_null.of_binary v4 str length).is_null = true ↔ length ≠ IN_ADDR_SIZE) ∧
    (length ≠ IN6_ADDR_SIZE → (v6.binary_to_ipv6 str length).2 = v6) ∧
    (length ≠ IN_ADDR_SIZE → (v4.binary_to_ipv4 str length).2 = v4) ∧
    (length = IN6_ADDR_SIZE →
      ∀ i, i < IN6_ADDR_SIZE → (v6.binary_to_ipv6 str length).2.m_buffer i = str i) ∧
    (length = IN_ADDR_SIZE →
      ∀ i, i < IN_ADDR_SIZE → (v4.binary_to_ipv4 str length).2.m_buffer i = str i) := by
  have h6 : (v6.binary_to_ipv6 str length).1 = true ↔ length ≠ IN6_ADDR_SIZE := by
    by_cases h : length = IN6_ADDR_SIZE <;> simp [Inet6.binary_to_ipv6, h]
  have h4 : (v4.binary_to_ipv4 str length).1 = true ↔ length ≠ IN_ADDR_SIZE := by
    by_cases h : length = IN_ADDR_SIZE <;> simp [Inet4.binary_to_ipv4, h]
  refine ⟨h6, h4, h6, h4, ?_, ?_, ?_, ?_⟩
  · intro h
    simp [Inet6.binary_to_ipv6, h]
  · intro h
    simp [Inet4.binary_to_ipv4, h]
  · intro h i hi
    simp [Inet6.binary_to_ipv6, h, memcpy, hi]
  · intro h i hi
    simp [Inet4.binary_to_ipv4, h, memcpy, hi]

/-- Witness for C12: a 4-byte string is rejected as an IPv6 address and the
buffer is left alone. -/
theorem binary_to_ip_spec_witness :
    (({ m_buffer := filled } : Inet6).binary_to_ipv6 sample_ipv6 4).1 = true ∧
    (({ m_buffer := filled } : Inet6).binary_to_ipv6 sample_ipv6 4).2
      = { m_buffer := filled } :=
  ⟨(binary_to_ip_spec { m_buffer := filled } { m_buffer := filled } sample_ipv6
      4).1.mpr (by decide),
   (binary_to_ip_spec { m_buffer := filled } { m_buffer := filled } sample_ipv6
      4).2.2.2.2.1 (by decide)⟩

/-- C13: INET6 binary round trip. For every 16-byte string `b`, whatever the
uninitialised object held, `Inet6_null(b, 16)` is not NULL; `to_binary(dst, n)`
with `n >= 16` passes its assertions and writes exactly the 16 bytes of `b` to
`dst`, the bytes of `dst` from offset 16 on staying as they were; and
`cmp(b, 16)` on that value passes its assertion and returns 0. -/
theorem inet6_binary_round_trip (uninit : Inet6) (b dst : CharPtr) (n : Nat)
    (hn : IN6_ADDR_SIZE ≤ n) :
    (Inet6_null.of_binary uninit b IN6_ADDR_SIZE).is_null = false ∧
    ((Inet6_null.of_binary uninit b IN6_ADDR_SIZE).to_binary dst n).assert_ok = true ∧
    (∀ i, i < IN6_ADDR_SIZE →
      ((Inet6_null.of_binary uninit b IN6_ADDR_SIZE).to_binary dst n).dst i = b i) ∧
    (∀ i, IN6_ADDR_SIZE ≤ i →
      ((Inet6_null.of_binary uninit b IN6_ADDR_SIZE).to_binary dst n).dst i = dst i) ∧
    ((Inet6_null.of_binary uninit b IN6_ADDR_SIZE).inet6.cmp b IN6_ADDR_SIZE).assert_ok
      = true ∧
    ((Inet6_null.of_binary uninit b IN6_ADDR_SIZE).inet6.cmp b IN6_ADDR_SIZE).ret = 0 := by
  have hbuf : ∀ i, i < IN6_ADDR_SIZE →
      (Inet6_null.of_binary uninit b IN6_ADDR_SIZE).inet6.m_buffer i = b i := by
    intro i hi
    simp [Inet6_null.of_binary, Inet6.binary_to_ipv6, memcpy, hi]
  have hnull : (Inet6_null.of_binary uninit b IN6_ADDR_SIZE).is_null = false := by
    simp [Inet6_null.of_binary, Inet6_null.is_null, Inet6.binary_to_ipv6]
  refine ⟨hnull, ?_, ?_, ?_, ?_, ?_⟩
  · simp [Inet6_null.to_binary, Inet6.to_binary, hnull, hn]
  · intro i hi
    simp only [Inet6_null.to_binary, Inet6.to_binary, memcpy, if_pos hi]
    exact hbuf i hi
  · intro i hi
    simp only [Inet6_null.to_binary, Inet6.to_binary, memcpy,
      if_neg (Nat.not_lt.mpr hi)]
  · simp [Inet6.cmp]
  · exact memcmp_eq_zero _ _ _ hbuf

/-- Witness for C13: the address `2001:db8::1`, written back into a 32-byte
destination filled with 0xAA. -/
theorem inet6_binary_round_trip_witness :
    (Inet6_null.of_binary { m_buffer := filled } sample_ipv6 IN6_ADDR_SIZE).is_null
      = false ∧
    ((Inet6_null.of_binary { m_buffer := filled } sample_ipv6
        IN6_ADDR_SIZE).to_binary filled 32).dst 3 = 0xb8 ∧
    ((Inet6_null.of_binary { m_buffer := filled } sample_ipv6
        IN6_ADDR_SIZE).to_binary filled 32).dst 16 = 0xAA ∧
    ((Inet6_null.of_binary { m_buffer := filled } sample_ipv6
        IN6_ADDR_SIZE).inet6.cmp sample_ipv6 IN6_ADDR_SIZE).ret = 0 :=
  ⟨(inet6_binary_round_trip { m_buffer := filled } sample_ipv6 filled 32
      (by decide)).1,
   (inet6_binary_round_trip { m_buffer := filled } sample_ipv6 filled 32
      (by decide)).2.2.1 3 (by decide),
   (inet6_binary_round_trip { m_buffer := filled } sample_ipv6 filled 32
      (by decide)).2.2.2.1 16 (by decide),
   (inet6_binary_round_trip { m_buffer := filled } sample_ipv6 filled 32
      (by decide)).2.2.2.2.2⟩

end SqlTypeInet

namespace MysqlUpgrade

/-! ## Helper lemmas on the record of commands -/

theorem commands_log (s : State) (e : Event) :
    (s.log e).commands
      = s.commands ++ (match e with
        | .popen cmd => [cmd]
        | _ => []) := by
  cases e <;> simp [State.log, State.commands, List.filterMap_append]

theorem commands_verbose (msg : String) (s : State) :
    (verbose msg s).commands = s.commands := by
  unfold verbose
  split
  · rfl
  · rw [commands_log]
    simp

theorem commands_next_phase (s : State) : (next_phase s).commands = s.commands := rfl

theorem commands_print_conn_args (tool_name : String) (s : State) :
    (print_conn_args tool_name s).commands = s.commands := by
  unfold print_conn_args
  split
  · rfl
  · split <;> exact commands_verbose _ _

theorem commands_free_used_memory (s : State) :
    (free_used_memory s).commands = s.commands := by
  unfold free_used_memory
  cases s.cnf_file_path with
  | none => rfl
  | some path =>
    simp only []
    rw [commands_log]
    simp [State.remove_file, State.commands]

theorem commands_die {α : Type} (msg : Option String) (s : State) :
    (die msg s : Outcome α).state.commands = s.commands := by
  cases msg with
  | none => exact commands_free_used_memory s
  | some m =>
    show (free_used_memory (s.log (.stderr _))).commands = _
    rw [commands_free_used_memory, commands_log]
    simp

/-- Whatever the shell answers, `run_tool` without a result string hands
exactly one command line to it. -/
theorem commands_run_tool (env : Env) (tool_path : String) (args : List String)
    (s : State) :
    (run_tool env tool_path none args s).state.commands
      = s.commands ++ [tool_cmdline env tool_path args] := by
  have hpre : (if s.opt_verbose ≥ 4
      then s.log (.stdout (tool_cmdline env tool_path args ++ "\n")) else s).commands
      = s.commands := by
    split
    · rw [commands_log]
      simp
    · rfl
  unfold run_tool run_command
  simp only []
  cases env.shell (if s.opt_verbose ≥ 4
      then s.log (.stdout (tool_cmdline env tool_path args ++ "\n")) else s).events.length
      (tool_cmdline env tool_path args) with
  | none =>
    simp only []
    rw [commands_die, commands_log, hpre]
  | some r =>
    obtain ⟨output, error⟩ := r
    simp only [Outcome.state]
    rw [commands_log, commands_log, hpre]
    simp

theorem tool_cmdline_append (env : Env) (tool_path : String)
    (front : List String) (a b c : String) :
    tool_cmdline env tool_path (front ++ [a, b, c])
      = tool_cmdline env tool_path front ++ a ++ " " ++ b ++ " " ++ c ++ " " := by
  simp [tool_cmdline, List.foldl_append]

/-! ## Claim on `--upgrade-system-tables` -/

/-- C14: `mysql_upgrade --upgrade-system-tables`. Whenever
`opt_systables_only` is set, `run_mysqlcheck_upgrade(FALSE)`,
`run_mysqlcheck_fixnames()` and `install_used_engines()` each return 0 in a
state that differs from the one before only by the phase counter and the
"Skipped" line on standard output: no command line is handed to the shell, no
file is touched. `run_mysqlcheck_upgrade(TRUE)` still hands one command line
to the shell, whatever the shell answers: `mysqlcheck` with `--check-upgrade
--auto-repair`, some of the verbosity and binary log flags, and the scope
`--databases mysql`. -/
theorem upgrade_system_tables_only (env : Env) (s : State)
    (h : s.opt_systables_only = true) :
    run_mysqlcheck_upgrade env false s
      = .ret 0 (verbose (phase_text (next_phase s) ++ "Checking and upgrading "
          ++ "tables" ++ "... Skipped") (next_phase s)) ∧
    run_mysqlcheck_fixnames env s
      = .ret 0 (verbose (phase_text (next_phase s)
          ++ "Fixing table and database names ... Skipped") (next_phase s)) ∧
    install_used_engines env s
      = .ret 0 (verbose (phase_text (next_phase s)
          ++ "Installing used storage engines... Skipped") (next_phase s)) ∧
    (∀ msg : String,
      (verbose msg (next_phase s)).commands = s.commands ∧
      (verbose msg (next_phase s)).files = s.files ∧
      ((verbose msg (next_phase s)).events = s.events ∨
        (verbose msg (next_phase s)).events
          = s.events ++ [Event.stdout (msg ++ "\n")])) ∧
    (∃ flags : List String,
      (∀ f ∈ flags,
        f ∈ ["", "--verbose", "--silent", "--write-binlog", "--skip-write-binlog"]) ∧
      (run_mysqlcheck_upgrade env true s).state.commands
        = s.commands ++
          [tool_cmdline env s.mysqlcheck_path
              ([s.defaults_file, "--check-upgrade", "--auto-repair"] ++ flags)
            ++ "--databases" ++ " " ++ "mysql" ++ " " ++ "2>&1" ++ " "]) := by
  refine ⟨?_, ?_, ?_, ?_, ?_⟩
  · simp [run_mysqlcheck_upgrade, h]
  · simp [run_mysqlcheck_fixnames, h]
  · simp [install_used_engines, h]
  · intro msg
    refine ⟨by rw [commands_verbose, commands_next_phase], ?_, ?_⟩
    · unfold verbose
      split <;> rfl
    · unfold verbose
      split
      · exact Or.inl rfl
      · exact Or.inr rfl
  · refine ⟨[if !s.opt_silent || s.opt_verbose ≥ 1 then "--verbose" else "",
        if s.opt_verbose ≥ 2 then "--verbose" else "",
        if s.opt_verbose ≥ 3 then "--verbose" else "",
        if s.opt_silent then "--silent" else "",
        if s.opt_write_binlog then "--write-binlog" else "--skip-write-binlog"],
      ?_, ?_⟩
    · intro f hf
      simp only [List.mem_cons, List.mem_singleton, List.not_mem_nil, or_false] at hf
      rcases hf with rfl | rfl | rfl | rfl | rfl <;> split <;> simp
    · rw [← tool_cmdline_append]
      have hrun := commands_run_tool env s.mysqlcheck_path
        ([s.defaults_file, "--check-upgrade", "--auto-repair"] ++
          [if !s.opt_silent || s.opt_verbose ≥ 1 then "--verbose" else "",
           if s.opt_verbose ≥ 2 then "--verbose" else "",
           if s.opt_verbose ≥ 3 then "--verbose" else "",
           if s.opt_silent then "--silent" else "",
           if s.opt_write_binlog then "--write-binlog" else "--skip-write-binlog"]
          ++ ["--databases", "mysql", "2>&1"])
        (print_conn_args "mysqlcheck"
          (verbose (phase_text (next_phase s) ++ "Checking and upgrading "
            ++ "mysql database") (next_phase s)))
      rw [commands_print_conn_args, commands_verbose, commands_next_phase] at hrun
      rw [← hrun]
      simp only [run_mysqlcheck_upgrade, h, if_true, Bool.not_true, Bool.and_false,
        Bool.false_eq_true, if_false]
      cases hres : run_tool env s.mysqlcheck_path none
          ([s.defaults_file, "--check-upgrade", "--auto-repair"] ++
            [if !s.opt_silent || s.opt_verbose ≥ 1 then "--verbose" else "",
             if s.opt_verbose ≥ 2 then "--verbose" else "",
             if s.opt_verbose ≥ 3 then "--verbose" else "",
             if s.opt_silent then "--silent" else "",
             if s.opt_write_binlog then "--write-binlog" else "--skip-write-binlog"]
            ++ ["--databases", "mysql", "2>&1"])
          (print_conn_args "mysqlcheck"
            (verbose (phase_text (next_phase s) ++ "Checking and upgrading "
              ++ "mysql database") (next_phase s))) with
      | ret r s3 =>
        simp only [List.cons_append, List.nil_append, List.append_assoc] at hres ⊢
        rw [hres]
        rfl
      | exit c s3 =>
        simp only [List.cons_append, List.nil_append, List.append_assoc] at hres ⊢
        rw [hres]
        rfl

/-- Witness for C14: with `--upgrade-system-tables` given, the name fixing
phase is skipped, returning 0 and running nothing. -/
theorem upgrade_system_tables_only_witness :
    run_mysqlcheck_fixnames (sample_env "10.5.0-MariaDB")
        { initial_state with opt_systables_only := true }
      = .ret 0 (verbose
          (phase_text (next_phase { initial_state with opt_systables_only := true })
            ++ "Fixing table and database names ... Skipped")
          (next_phase { initial_state with opt_systables_only := true })) :=
  (upgrade_system_tables_only (sample_env "10.5.0-MariaDB")
    { initial_state with opt_systables_only := true } rfl).2.1

/-! ## Claim on the password option -/

theorem destroy_argument_eq (m : List Char) :
    destroy_argument m
      = List.replicate (cstr m).length 'x' ++ m.drop (cstr m).length := by
  induction m with
  | nil => rfl
  | cons c cs ih =>
    by_cases hc : c = NUL
    · subst hc
      simp [destroy_argument, cstr]
    · have hne : (c != NUL) = true := by simp [hc]
      have hcstr : cstr (c :: cs) = c :: cstr cs := by
        simp [cstr, List.takeWhile_cons, hne]
      rw [hcstr]
      simp only [destroy_argument, if_neg hc, List.length_cons, List.replicate_succ,
        List.drop_succ_cons, List.cons_append]
      rw [ih]

theorem cstr_destroy_argument (m : List Char) :
    cstr (destroy_argument m) = List.replicate (cstr m).length 'x' := by
  induction m with
  | nil => rfl
  | cons c cs ih =>
    by_cases hc : c = NUL
    · subst hc
      simp [destroy_argument, cstr]
    · have hne : (c != NUL) = true := by simp [hc]
      have hx : (('x' : Char) != NUL) = true := by decide
      have hcstr : cstr (c :: cs) = c :: cstr cs := by
        simp [cstr, List.takeWhile_cons, hne]
      have hcx : cstr ('x' :: destroy_argument cs) = 'x' :: cstr (destroy_argument cs) := by
        simp [cstr, List.takeWhile_cons, hx]
      rw [hcstr]
      simp only [destroy_argument, if_neg hc, List.length_cons, List.replicate_succ]
      rw [hcx, ih]

theorem length_destroy_argument (m : List Char) :
    (destroy_argument m).length = m.length := by
  induction m with
  | nil => rfl
  | cons c cs ih =>
    by_cases hc : c = NUL
    · simp [destroy_argument, hc]
    · simp [destroy_argument, hc, ih]

/-- C15: password handling in `get_one_option`. For every argument given to
`--password` (a pointer to memory holding the password, not the pointer that
marks a disabled option), the call returns 0 and: the line
`password=<quoted original text>` has been appended to `ds_args`, once;
`tty_password` is 0; nothing else of the state has changed, so `conn_args` is
as before; and in the memory behind the argument every character of the
password is an `x`, the string has its old length, and the memory from its
end on is untouched. -/
theorem get_one_option_password (env : Env) (m : List Char) (s : State) :
    get_one_option env password_option (Argument.mem m) s
      = .ret (0, Argument.mem
            (List.replicate (cstr m).length 'x' ++ m.drop (cstr m).length))
          { s with
            ds_args := s.ds_args ++ "password" ++ "="
              ++ env.os_quoted (String.mk (cstr m)) ++ "\n"
            tty_password := false } ∧
    (get_one_option env password_option (Argument.mem m) s).state.conn_args
      = s.conn_args ∧
    cstr (List.replicate (cstr m).length 'x' ++ m.drop (cstr m).length)
      = List.replicate (cstr m).length 'x' ∧
    (List.replicate (cstr m).length 'x' ++ m.drop (cstr m).length).length
      = m.length := by
  have hrun : get_one_option env password_option (Argument.mem m) s
      = .ret (0, Argument.mem (destroy_argument m))
          { s with
            ds_args := s.ds_args ++ "password" ++ "="
              ++ env.os_quoted (String.mk (cstr m)) ++ "\n"
            tty_password := false } := by
    simp [get_one_option, password_option, add_one_option_cnf_file, Argument.text]
  refine ⟨?_, ?_, ?_, ?_⟩
  · rw [hrun, destroy_argument_eq]
  · rw [hrun]
    rfl
  · rw [← destroy_argument_eq, cstr_destroy_argument]
  · rw [← destroy_argument_eq, length_destroy_argument]

/-! ## Helper lemmas on the verbosity level -/

theorem opt_verbose_log (s : State) (e : Event) :
    (s.log e).opt_verbose = s.opt_verbose := rfl

theorem opt_silent_log (s : State) (e : Event) :
    (s.log e).opt_silent = s.opt_silent := rfl

theorem opt_verbose_die {α : Type} (msg : Option String) (s : State) :
    (die msg s : Outcome α).state.opt_verbose = s.opt_verbose := by
  unfold die free_used_memory
  cases msg <;> cases hp : s.cnf_file_path <;> simp [Outcome.state, State.log, hp] <;> rfl

theorem opt_silent_die {α : Type} (msg : Option String) (s : State) :
    (die msg s : Outcome α).state.opt_silent = s.opt_silent := by
  unfold die free_used_memory
  cases msg <;> cases hp : s.cnf_file_path <;> simp [Outcome.state, State.log, hp] <;> rfl

/-- The options other than `--verbose`, `--version-check`, `--basedir`,
`--datadir` and `--silent` leave `opt_verbose` and `opt_silent` as they
were. -/
theorem get_one_option_keeps_verbosity (env : Env) (opt : my_option)
    (argument : Argument) (s : State)
    (hb : opt.id ≠ .chr 'b') (hd : opt.id ≠ .chr 'd') (hk : opt.id ≠ .chr 'k')
    (hv : opt.id ≠ .chr 'v') (hs : opt.id ≠ .OPT_SILENT) :
    (get_one_option env opt argument s).state.opt_verbose = s.opt_verbose ∧
    (get_one_option env opt argument s).state.opt_silent = s.opt_silent := by
  unfold get_one_option
  simp only [hb, hd, hk, hv, hs, or_self, if_false]
  split
  · simp only [opt_verbose_die, opt_silent_die, opt_verbose_log, opt_silent_log,
      and_self]
  · split
    · exact ⟨rfl, rfl⟩
    · split
      · cases argument <;> exact ⟨rfl, rfl⟩
      · split
        · exact ⟨rfl, rfl⟩
        · split
          · simp only [opt_verbose_die, opt_silent_die, opt_verbose_log,
              opt_silent_log, and_self]
          · split
            · exact ⟨rfl, rfl⟩
            · split <;> exact ⟨rfl, rfl⟩

/-- What `get_one_option` does to the verbosity for `--verbose`, `--skip-verbose`
and `--silent`. -/
theorem get_one_option_verbose_and_silent (env : Env) (s : State) :
    (get_one_option env verbose_option Argument.null s).state.opt_verbose
      = my_bool_incr s.opt_verbose ∧
    (get_one_option env verbose_option Argument.null s).state.opt_silent
      = s.opt_silent ∧
    (get_one_option env verbose_option Argument.disabled s).state.opt_verbose = 0 ∧
    (get_one_option env verbose_option Argument.disabled s).state.opt_silent = true ∧
    (get_one_option env silent_option Argument.null s).state.opt_verbose = 0 ∧
    (get_one_option env silent_option Argument.null s).state.opt_silent
      = s.opt_silent ∧
    (∀ v : Int, 0 ≤ v → v < 127 → my_bool_incr v = v + 1) := by
  refine ⟨?_, ?_, ?_, ?_, ?_, ?_, ?_⟩
  · simp [get_one_option, verbose_option, verbose_case, Outcome.state]
  · simp [get_one_option, verbose_option, verbose_case, Outcome.state]
  · simp [get_one_option, verbose_option, verbose_case, Outcome.state]
  · simp [get_one_option, verbose_option, verbose_case, Outcome.state]
  · simp [get_one_option, silent_option, Outcome.state]
  · simp [get_one_option, silent_option, Outcome.state]
  · intro v h0 h1
    unfold my_bool_incr
    omega

/-! ## Claim on the verbosity level -/

/-- C16: verbosity in `get_one_option`, evaluated where the code departs from
the claim. `--version-check` raises `opt_verbose` by one, exactly as
`--verbose` does; `--skip-version-check` sets `opt_verbose` to 0 and
`opt_silent` to 1; `--basedir` and `--datadir`, announced on standard error as
always ignored, raise `opt_verbose` by one as well. From the initial state one
`--version-check` gives the verbosity 1, and with one `--verbose` before it the
verbosity 2, at which the connection arguments are printed. -/
theorem get_one_option_verbosity_fallthrough (env : Env) (s : State) :
    (get_one_option env version_check_option Argument.null s).state.opt_verbose
      = my_bool_incr s.opt_verbose ∧
    (get_one_option env version_check_option Argument.null s).state.opt_verbose
      = (get_one_option env verbose_option Argument.null s).state.opt_verbose ∧
    (get_one_option env version_check_option Argument.disabled s).state.opt_verbose = 0 ∧
    (get_one_option env version_check_option Argument.disabled s).state.opt_silent = true ∧
    (∀ m : List Char,
      (get_one_option env basedir_option (Argument.mem m) s).state.opt_verbose
        = my_bool_incr s.opt_verbose) ∧
    (∀ m : List Char,
      (get_one_option env datadir_option (Argument.mem m) s).state.opt_verbose
        = my_bool_incr s.opt_verbose) ∧
    (get_one_option env version_check_option Argument.null initial_state).state.opt_verbose
      = 1 ∧
    (get_one_option env version_check_option Argument.null
      (get_one_option env verbose_option Argument.null initial_state).state).state.opt_verbose
      = 2 := by
  refine ⟨?_, ?_, ?_, ?_, ?_, ?_, ?_, ?_⟩
  · simp [get_one_option, version_check_option, verbose_case, Outcome.state]
  · simp [get_one_option, version_check_option, verbose_option, verbose_case,
      Outcome.state]
  · simp [get_one_option, version_check_option, verbose_case, Outcome.state]
  · simp [get_one_option, version_check_option, verbose_case, Outcome.state]
  · intro m
    simp [get_one_option, basedir_option, verbose_case, Outcome.state, State.log]
  · intro m
    simp [get_one_option, datadir_option, verbose_case, Outcome.state, State.log]
  · simp [get_one_option, version_check_option, verbose_case, Outcome.state,
      initial_state, my_bool_incr]
  · simp [get_one_option, version_check_option, verbose_option, verbose_case,
      Outcome.state, initial_state, my_bool_incr]

/-! ## Helper lemmas on the info file check -/

theorem fgets_read_exact (p : List Char) :
    ∀ r : List Char, (∀ c ∈ p, c ≠ '\n') → fgets_read p.length (p ++ r) = p := by
  induction p with
  | nil =>
    intro r _
    rfl
  | cons c cs ih =>
    intro r h
    have hc : c ≠ '\n' := h c (List.mem_cons_self c cs)
    have hcs : ∀ d ∈ cs, d ≠ '\n' := fun d hd => h d (List.mem_cons_of_mem c hd)
    simp only [List.length_cons, List.cons_append, fgets_read, if_neg hc]
    exact congrArg _ (ih r hcs)

theorem fgets_read_all (l : List Char) :
    ∀ room : Nat, l.length ≤ room → (∀ c ∈ l, c ≠ '\n') → fgets_read room l = l := by
  induction l with
  | nil =>
    intro room _ _
    cases room <;> rfl
  | cons c cs ih =>
    intro room hlen h
    have hc : c ≠ '\n' := h c (List.mem_cons_self c cs)
    have hcs : ∀ d ∈ cs, d ≠ '\n' := fun d hd => h d (List.mem_cons_of_mem c hd)
    cases room with
    | zero => simp at hlen
    | succ room =>
      have hlen2 : cs.length ≤ room := by simpa using hlen
      simp only [fgets_read, if_neg hc, ih room hlen2 hcs]

theorem strncmp_common (p : List Char) :
    ∀ (r1 r2 : List Char) (n : Nat), (∀ c ∈ p, c ≠ NUL) →
      strncmp (p ++ r1) (p ++ r2) (p.length + n) = strncmp r1 r2 n := by
  induction p with
  | nil =>
    intro r1 r2 n _
    simp
  | cons c cs ih =>
    intro r1 r2 n h
    have hc : c ≠ NUL := h c (List.mem_cons_self c cs)
    have hcs : ∀ d ∈ cs, d ≠ NUL := fun d hd => h d (List.mem_cons_of_mem c hd)
    have hn : (c :: cs).length + n = (cs.length + n) + 1 := by
      simp only [List.length_cons]
      omega
    rw [hn]
    simp only [List.cons_append, strncmp, List.headD_cons, ne_eq, not_true_eq_false,
      if_false, if_neg hc, List.tail_cons]
    exact ih r1 r2 n hcs

theorem toNat_ne_zero_of_ne_NUL (c : Char) (h : c ≠ NUL) : (c.toNat : Int) ≠ 0 := by
  intro h0
  have h00 : c.toNat = 0 := by exact_mod_cast h0
  apply h
  rw [← Char.ofNat_toNat c, h00]
  rfl

/-- The check of the info file on a version of more than 18 characters: the
buffer keeps the first 18 of them and the comparison fails. -/
theorem version_check_long (env : Env)
    (hlen : 18 < env.MYSQL_SERVER_VERSION.toList.length)
    (hnul : ∀ c ∈ env.MYSQL_SERVER_VERSION.toList, c ≠ NUL)
    (hnl : ∀ c ∈ env.MYSQL_SERVER_VERSION.toList, c ≠ '\n') :
    fgets (List.replicate upgrade_from_version_size NUL) upgrade_from_version_size
        (env.MYSQL_SERVER_VERSION.toList ++ [NUL])
      = some (env.MYSQL_SERVER_VERSION.toList.take 18 ++ [NUL]) ∧
    version_matches env (env.MYSQL_SERVER_VERSION.toList.take 18 ++ [NUL]) = 0 := by
  have hvlen : env.MYSQL_SERVER_VERSION.length
      = env.MYSQL_SERVER_VERSION.toList.length := rfl
  unfold version_matches
  rw [hvlen]
  generalize env.MYSQL_SERVER_VERSION.toList = v at *
  obtain ⟨p, d, hpd, hplen⟩ : ∃ p d : List Char, v = p ++ d ∧ p.length = 18 :=
    ⟨v.take 18, v.drop 18, (List.take_append_drop 18 v).symm, by
      rw [List.length_take]
      omega⟩
  subst hpd
  have htake : (p ++ d).take 18 = p := List.take_left' hplen
  rw [htake]
  have hpnl : ∀ c ∈ p, c ≠ '\n' := fun c hc => hnl c (List.mem_append_left d hc)
  have hpnul : ∀ c ∈ p, c ≠ NUL := fun c hc => hnul c (List.mem_append_left d hc)
  cases d with
  | nil =>
    simp only [List.append_nil] at hlen
    omega
  | cons c t =>
    have hcnul : c ≠ NUL :=
      hnul c (List.mem_append_right p (List.mem_cons_self c t))
    constructor
    · have hread : fgets_read (upgrade_from_version_size - 1) (p ++ c :: t ++ [NUL]) = p := by
        have h18 : upgrade_from_version_size - 1 = p.length := by
          rw [hplen]
          rfl
        rw [h18, List.append_assoc]
        exact fgets_read_exact _ _ hpnl
      unfold fgets
      rw [hread]
      cases p with
      | nil => simp at hplen
      | cons a as =>
        simp only [hplen]
        have hdrop : List.drop (18 + 1)
            (List.replicate upgrade_from_version_size NUL) = [] := by decide
        rw [hdrop, List.append_nil]
    · have hlen2 : (p ++ c :: t).length = p.length + (t.length + 1) := by simp
      rw [hlen2, strncmp_common _ _ _ _ hpnul]
      have hne : NUL ≠ c := fun h => hcnul h.symm
      have hdiff : ((NUL.toNat : Int) - (c.toNat : Int)) ≠ 0 := by
        have hz : (NUL.toNat : Int) = 0 := by decide
        have := toNat_ne_zero_of_ne_NUL c hcnul
        rw [hz]
        omega
      simp only [strncmp, List.headD_cons, ne_eq, hne, not_false_eq_true, if_true]
      simp [hdiff]

/-- The check of the info file on a version of at most 18 characters: the
buffer starts with the whole version and the comparison succeeds. -/
theorem version_check_short (env : Env)
    (hlen : env.MYSQL_SERVER_VERSION.toList.length ≤ 18)
    (hnul : ∀ c ∈ env.MYSQL_SERVER_VERSION.toList, c ≠ NUL)
    (hnl : ∀ c ∈ env.MYSQL_SERVER_VERSION.toList, c ≠ '\n') :
    ∃ buf : List Char,
      fgets (List.replicate upgrade_from_version_size NUL) upgrade_from_version_size
          (env.MYSQL_SERVER_VERSION.toList ++ [NUL]) = some buf ∧
      version_matches env buf = 1 := by
  have hvlen : env.MYSQL_SERVER_VERSION.length
      = env.MYSQL_SERVER_VERSION.toList.length := rfl
  unfold version_matches
  rw [hvlen]
  generalize env.MYSQL_SERVER_VERSION.toList = v at *
  have hmatch : ∀ rest : List Char, strncmp (v ++ rest) v v.length = 0 := by
    intro rest
    have := strncmp_common v rest [] 0 hnul
    simpa using this
  have hnlnul : (NUL : Char) ≠ '\n' := by decide
  by_cases h18 : v.length = 18
  · have hread : fgets_read (upgrade_from_version_size - 1) (v ++ [NUL]) = v := by
      have hsz : upgrade_from_version_size - 1 = v.length := by
        rw [h18]
        rfl
      rw [hsz]
      exact fgets_read_exact _ _ hnl
    unfold fgets
    rw [hread]
    cases v with
    | nil => simp at h18
    | cons a as =>
      refine ⟨_, rfl, ?_⟩
      rw [List.append_assoc, hmatch]
      rfl
  · have hread : fgets_read (upgrade_from_version_size - 1) (v ++ [NUL]) = v ++ [NUL] := by
      apply fgets_read_all
      · have hsz : upgrade_from_version_size - 1 = 18 := rfl
        rw [hsz, List.length_append]
        simp only [List.length_singleton]
        omega
      · intro c hc
        rcases List.mem_append.mp hc with h | h
        · exact hnl c h
        · rw [List.mem_singleton.mp h]
          exact hnlnul
    unfold fgets
    rw [hread]
    cases hv : v ++ [NUL] with
    | nil => simp at hv
    | cons a as =>
      refine ⟨_, rfl, ?_⟩
      rw [← hv, List.append_assoc, List.append_assoc, hmatch]
      rfl

/-! ## Claim on the upgrade info file -/

/-- C17: info file round trip, evaluated where the code departs from the
claim. For the server version `10.3.22-MariaDB-1ubuntu1`, 24 characters, in an
environment where every query, file and shell operation succeeds:
`create_mysql_upgrade_info_file` writes the version and its terminating NUL to
the info file and reports on standard error that the file was not properly
created; `upgrade_already_done` reading that file back returns 0, having kept
only the first 18 characters in `upgrade_from_version`. For the version
`10.5.0-MariaDB`, 14 characters, it returns 1. -/
theorem upgrade_info_round_trip_long_version :
    (create_mysql_upgrade_info_file (sample_env "10.3.22-MariaDB-1ubuntu1")
        initial_state).state.read_file "/var/lib/mysql/mysql_upgrade_info"
      = some ("10.3.22-MariaDB-1ubuntu1".toList ++ [NUL]) ∧
    Event.stderr ("Upgrade file '/var/lib/mysql/mysql_upgrade_info' was not "
        ++ "properly created. Got error errno while checking file content: 0\n")
      ∈ (create_mysql_upgrade_info_file (sample_env "10.3.22-MariaDB-1ubuntu1")
          initial_state).state.events ∧
    (upgrade_already_done (sample_env "10.3.22-MariaDB-1ubuntu1") 0
      (create_mysql_upgrade_info_file (sample_env "10.3.22-MariaDB-1ubuntu1")
        initial_state).state).val? = some 0 ∧
    (upgrade_already_done (sample_env "10.3.22-MariaDB-1ubuntu1") 0
      (create_mysql_upgrade_info_file (sample_env "10.3.22-MariaDB-1ubuntu1")
        initial_state).state).state.upgrade_from_version
      = "10.3.22-MariaDB-1u".toList ++ [NUL] ∧
    (upgrade_already_done (sample_env "10.5.0-MariaDB") 0
      (create_mysql_upgrade_info_file (sample_env "10.5.0-MariaDB")
        initial_state).state).val? = some 1 := by
  refine ⟨?_, ?_, ?_, ?_, ?_⟩ <;> decide

/-! ## Claim on version numbers -/

theorem isdigit_bounds (c : Char) (h : isdigit c = true) :
    48 ≤ c.toNat ∧ c.toNat ≤ 57 := by
  simpa [isdigit] using h

theorem isspace_of_isdigit (c : Char) (h : isdigit c = true) : isspace c = false := by
  obtain ⟨h1, h2⟩ := isdigit_bounds c h
  have hne : c ≠ ' ' := by
    intro hc
    rw [hc] at h1
    exact absurd h1 (by decide)
  simp only [isspace, Bool.or_eq_false_iff, beq_eq_false_iff_ne, ne_eq, hne,
    not_false_eq_true, Bool.and_eq_false_imp, decide_eq_true_eq, decide_eq_false_iff_not,
    true_and]
  intro _
  omega

theorem not_sign_of_isdigit (c : Char) (h : isdigit c = true) :
    (c == '-' || c == '+') = false := by
  obtain ⟨h1, h2⟩ := isdigit_bounds c h
  have hm : c ≠ '-' := by
    intro hc
    rw [hc] at h1
    exact absurd h1 (by decide)
  have hp : c ≠ '+' := by
    intro hc
    rw [hc] at h1
    exact absurd h1 (by decide)
  simp [hm, hp]

/-- The digit loop reads all of a run of digits that a non-digit follows. -/
theorem strtoul_digits_append (digits : List Char) :
    ∀ (rest : List Char) (acc : Nat), (∀ c ∈ digits, isdigit c = true) →
      isdigit (rest.headD NUL) = false →
      strtoul_digits (digits ++ rest) acc
        = (digits.foldl (fun a c => 10 * a + (c.toNat - 48)) acc, rest) := by
  induction digits with
  | nil =>
    intro rest acc _ hrest
    cases rest with
    | nil => rfl
    | cons c cs =>
      have hc : isdigit c = false := hrest
      simp [strtoul_digits, hc]
  | cons d ds ih =>
    intro rest acc hall hrest
    have hd : isdigit d = true := hall d (List.mem_cons_self d ds)
    have hds : ∀ c ∈ ds, isdigit c = true :=
      fun c hc => hall c (List.mem_cons_of_mem d hc)
    simp only [List.cons_append, strtoul_digits, hd, if_true, List.foldl_cons]
    exact ih rest _ hds hrest

/-- `strtoul` on a non-empty run of digits that a non-digit follows, the value
being in range: the value of the digits, and the rest. -/
theorem strtoul_decimal (digits rest : List Char) (hne : digits ≠ [])
    (hall : ∀ c ∈ digits, isdigit c = true)
    (hrest : isdigit (rest.headD NUL) = false)
    (hval : decimal_value digits < ULONG_VALUES) :
    strtoul (digits ++ rest) = (decimal_value digits, rest) := by
  cases digits with
  | nil => exact absurd rfl hne
  | cons d ds =>
    have hd : isdigit d = true := hall d (List.mem_cons_self d ds)
    have hsp : isspace d = false := isspace_of_isdigit d hd
    have hsign := not_sign_of_isdigit d hd
    have hminus : (d == '-') = false := by
      cases hm : (d == '-')
      · rfl
      · rw [hm] at hsign
        exact absurd hsign (by simp)
    have hplus : (d == '+') = false := by
      cases hm : (d == '+')
      · rfl
      · rw [hm] at hsign
        exact absurd hsign (by simp)
    have hloop := strtoul_digits_append (d :: ds) rest 0 hall hrest
    have hval2 : ¬ (List.foldl (fun a c => 10 * a + (c.toNat - 48)) 0 (d :: ds)
        ≥ ULONG_VALUES) := Nat.not_le.mpr hval
    rw [List.cons_append] at hloop
    unfold strtoul
    simp only [List.cons_append, List.dropWhile_cons, hsp, List.headD_cons, hplus,
      hminus, hd, if_true, Bool.false_eq_true, if_false, Bool.or_self, hloop, hval2]
    rfl

/-- C18, as stated, fails: the components of `4294967296.0.0` are decimal,
yet the result is 0, not `4294967296 * 10000`, the major number being
converted to `uint`. A minor number that makes `minor * 100` exceed a `uint`
is cut down the same way. -/
theorem calc_server_version_overflow :
    calc_server_version
        ("4294967296".toList ++ ('.' :: ("0".toList ++ ('.' :: ("0".toList ++ [])))))
      = 0 ∧
    calc_server_version
        ("4294967296".toList ++ ('.' :: ("0".toList ++ ('.' :: ("0".toList ++ [])))))
      ≠ decimal_value "4294967296".toList * 10000 + decimal_value "0".toList * 100
        + decimal_value "0".toList ∧
    calc_server_version
        ("10".toList ++ ('.' :: ("42949673".toList ++ ('.' :: ("0".toList ++ [])))))
      ≠ decimal_value "10".toList * 10000 + decimal_value "42949673".toList * 100
        + decimal_value "0".toList := by
  refine ⟨?_, ?_, ?_⟩ <;> decide

/-- C18, amended: `calc_server_version(some_version)` for every string of the
form `<major>.<minor>.<patch><suffix>` whose components are non-empty runs of
decimal digits, the suffix not starting with a digit, with `major` below
`2 ^ 32` and `minor * 100 + patch` below `2 ^ 32`: the result is
`major * 10000 + minor * 100 + patch`, whatever the suffix is. -/
theorem calc_server_version_spec (major minor patch suffix : List Char)
    (hmajor : major ≠ [] ∧ ∀ c ∈ major, isdigit c = true)
    (hminor : minor ≠ [] ∧ ∀ c ∈ minor, isdigit c = true)
    (hpatch : patch ≠ [] ∧ ∀ c ∈ patch, isdigit c = true)
    (hsuffix : isdigit (suffix.headD NUL) = false)
    (hfit_major : decimal_value major < 2 ^ 32)
    (hfit_minor : decimal_value minor * 100 + decimal_value patch < 2 ^ 32) :
    calc_server_version (major ++ ('.' :: (minor ++ ('.' :: (patch ++ suffix)))))
      = decimal_value major * 10000 + decimal_value minor * 100
        + decimal_value patch := by
  have hdot : isdigit '.' = false := by decide
  have h1 := strtoul_decimal major ('.' :: (minor ++ ('.' :: (patch ++ suffix))))
    hmajor.1 hmajor.2 hdot (by simp only [ULONG_VALUES]; omega)
  have h2 := strtoul_decimal minor ('.' :: (patch ++ suffix))
    hminor.1 hminor.2 hdot (by simp only [ULONG_VALUES]; omega)
  have h3 := strtoul_decimal patch suffix
    hpatch.1 hpatch.2 hsuffix (by simp only [ULONG_VALUES]; omega)
  unfold calc_server_version
  simp only [h1, h2, h3, List.drop_succ_cons, List.drop_zero]
  generalize decimal_value major = a at *
  generalize decimal_value minor = b at *
  generalize decimal_value patch = c at *
  simp only [UINT_VALUES, ULONG_VALUES]
  have ha : a % 2 ^ 32 = a := Nat.mod_eq_of_lt hfit_major
  have hb : b % 2 ^ 32 = b := Nat.mod_eq_of_lt (by omega)
  have hc : c % 2 ^ 32 = c := Nat.mod_eq_of_lt (by omega)
  have hbc : (b * 100 + c) % 2 ^ 32 = b * 100 + c := Nat.mod_eq_of_lt hfit_minor
  have ha2 : a * 10000 % 2 ^ 64 = a * 10000 := Nat.mod_eq_of_lt (by omega)
  rw [ha, hb, hc, hbc, ha2, ← Nat.add_assoc]
  exact Nat.mod_eq_of_lt (by omega)

/-- Witness for C18: `10.5.0-MariaDB` gives 100500. -/
theorem calc_server_version_spec_witness :
    calc_server_version "10.5.0-MariaDB".toList = 100500 :=
  (calc_server_version_spec "10".toList "5".toList "0".toList "-MariaDB".toList
    ⟨by decide, by decide⟩ ⟨by decide, by decide⟩ ⟨by decide, by decide⟩
    (by decide) (by decide) (by decide)).trans (by decide)

end MysqlUpgrade
